import Mathlib

/-!
Order fulfilment, cancellation and cart operations of the store backend.

A shallow embedding of the persistence layer of the store backend
(`internal/adapters/persistence/repositories`) and of the parts of the service
and request layers that the theorems need, followed by theorems about it.

Modelling conventions.

* A database is a record of tables; a table is the list of its visible rows in
  storage order.  Rows that were soft-deleted (`deleted_at` set) are invisible
  to every query the repositories issue, so they are not part of a table.
* `uuid.UUID` values are natural numbers.  The identifier a new row receives
  from the column default `gen_random_uuid()` is an input of the operation that
  inserts the row; inserting a row whose primary key is already present is a
  storage error.
* Go `int` columns (`Stock`, `Quantity`) are integers.  The one sum of Go `int`s
  in the code (`AddItem`, line 65) is the sum of integers.  Its first summand is
  read from a column of type `int` (32 bits in PostgreSQL) and its second one
  has passed the test of line 57 against a stock read from such a column, so the
  sum stays below the upper bound of Go's 64-bit `int`; it passes the lower
  bound only for a negative stored quantity together with a requested quantity
  next to the least `int`.
* `float64` columns (`Price`, `TotalPrice`, `Amount`) range over a type `F` that
  carries the operations the code uses (`0`, `+`, `*`, conversion from `int`);
  no law of arithmetic is assumed for them.  These columns have the type
  `decimal(10,2)`: a computed or submitted `float64` that is written to one of
  them is stored as `decimal_10_2` of it, the value rounded to two decimal
  places; a value that was read from such a column is written back as it is.
* Every statement sent to the database may fail for reasons outside the
  program.  Each operation takes the statement at which such a failure happens
  (if any) as an input, named `fault`.
* A transaction is a pair of databases: the one at `Begin` and the current one.
  `Rollback` yields the former, `Commit` the latter.
* The columns `created_at` and `updated_at` are left out.
-/

namespace Store

abbrev UUID := Nat

/-- Go `error` values that the repositories return. -/
inductive Error where
  /-- The value `gorm.ErrRecordNotFound`. -/
  | ErrRecordNotFound
  /-- The value `gorm.ErrInvalidData`. -/
  | ErrInvalidData
  /-- The value `errors.New(msg)`. -/
  | New (msg : String)
  /-- Any other error reported by the database. -/
  | storage
  deriving DecidableEq, Repr

/-- Message of the error `Create` returns for a cart without items. -/
def emptyCartMsg : String := "ตะกร้าสินค้าว่าง"

/-- Message of the error `Cancel` returns for an order that is not pending. -/
def cannotCancelMsg : String := "ไม่สามารถยกเลิกคำสั่งซื้อนี้ได้"

/-- The error the specification calls `EmptyCart`. -/
def EmptyCart : Error := Error.New emptyCartMsg

/-- The error the specification calls `InvalidOrderState`. -/
def InvalidOrderState : Error := Error.New cannotCancelMsg

/-! ## Rows (`internal/adapters/persistence/models`) -/

structure Product (F : Type) where
  ID : UUID
  Name : String
  Description : String
  Price : F
  Stock : Int
  Image : String
  CategoryID : UUID
  deriving DecidableEq, Repr

structure Cart (F : Type) where
  ID : UUID
  UserID : UUID
  TotalPrice : F
  deriving DecidableEq, Repr

structure CartItem (F : Type) where
  ID : UUID
  CartID : UUID
  ProductID : UUID
  Quantity : Int
  Price : F
  deriving DecidableEq, Repr

structure Order (F : Type) where
  ID : UUID
  UserID : UUID
  TotalPrice : F
  Status : String
  PaymentMethod : String
  PaymentStatus : String
  ShippingMethod : String
  ShippingStatus : String
  ShippingAddress : String
  TrackingNumber : String
  Notes : String
  deriving DecidableEq, Repr

structure OrderItem (F : Type) where
  ID : UUID
  OrderID : UUID
  ProductID : UUID
  Quantity : Int
  Price : F
  deriving DecidableEq, Repr

structure Transaction (F : Type) where
  ID : UUID
  OrderID : UUID
  Amount : F
  PaymentMethod : String
  Status : String
  TransactionID : String
  PaymentData : String
  deriving DecidableEq, Repr

/-- The tables the repositories read and write. -/
structure DB (F : Type) where
  products : List (Product F)
  carts : List (Cart F)
  cartItems : List (CartItem F)
  orders : List (Order F)
  orderItems : List (OrderItem F)
  transactions : List (Transaction F)
  deriving DecidableEq, Repr

/-- A database transaction: the database at `Begin` and the current one. -/
structure Tx (F : Type) where
  base : DB F
  cur : DB F

/-- What the database makes of a `float64` that is written to a column of type
`decimal(10,2)` and read back: the value rounded to two decimal places. -/
class DecimalColumn (F : Type) where
  decimal_10_2 : F → F

variable {F : Type}

def Begin (db : DB F) : Tx F := ⟨db, db⟩

def Tx.Rollback (tx : Tx F) : DB F := tx.base

def Tx.Commit (tx : Tx F) : DB F := tx.cur

/-! ## Queries -/

/-- Keeps the row with the smaller key. -/
def pickFirst {α : Type} (key : α → UUID) (best : Option α) (r : α) : Option α :=
  match best with
  | none => some r
  | some b => if key r < key b then some r else some b

/-- GORM `First`: the row with the least primary key among those that satisfy
the condition (`ORDER BY id LIMIT 1`), or nothing. -/
def First {α : Type} (key : α → UUID) (cond : α → Bool) (rows : List α) : Option α :=
  (rows.filter cond).foldl (pickFirst key) none

/-- Request body of order creation (`entities.CreateOrderRequest`). -/
structure CreateOrderRequest where
  PaymentMethod : String
  ShippingMethod : String
  ShippingAddress : String
  Notes : String
  deriving DecidableEq, Repr

/-- What `orderRepository.GetByID` returns: the order row with its preloaded
order items and transactions (the preloaded user and products are left out). -/
structure OrderEntity (F : Type) where
  order : Order F
  OrderItems : List (OrderItem F)
  Transactions : List (Transaction F)
  deriving DecidableEq, Repr

/-- Model of `orderRepository.GetByID`; `fault` says whether the query fails. -/
def orderRepository.GetByID (fault : Bool) (db : DB F) (id : UUID) :
    Except Error (OrderEntity F) :=
  if fault then .error .storage
  else
    match First (fun o => o.ID) (fun o => o.ID = id) db.orders with
    | none => .error .ErrRecordNotFound
    | some order =>
      .ok { order := order
            OrderItems := db.orderItems.filter (fun i => i.OrderID = order.ID)
            Transactions := db.transactions.filter (fun t => t.OrderID = order.ID) }

/-! ## `orderRepository.Create` -/

/-- The database statements of `orderRepository.Create`. -/
inductive CreateStep where
  /-- Loading the cart with its items. -/
  | loadCart
  /-- Inserting the order row. -/
  | insertOrder
  /-- Inserting the order item of the cart item at position `k`. -/
  | insertItem (k : Nat)
  /-- Updating the stock of the product of the cart item at position `k`. -/
  | updateStock (k : Nat)
  /-- Deleting the cart items. -/
  | clearCart
  /-- The commit. -/
  | commit
  /-- The read of the order after the commit. -/
  | readBack
  deriving DecidableEq, Repr

/-- What the environment contributes to one call of `orderRepository.Create`. -/
structure CreateEnv where
  /-- Identifier the database gives the order row. -/
  orderID : UUID
  /-- Identifier the database gives the order item of the cart item at position `k`. -/
  itemID : Nat → UUID
  /-- Statement at which the database reports an error, if any. -/
  fault : Option CreateStep

/-- The statement `UPDATE products SET stock = expr WHERE id = productID`, where
`expr` is an expression in the current stock of the row. -/
def updateStock (products : List (Product F)) (productID : UUID) (expr : Int → Int) :
    List (Product F) :=
  products.map (fun p => if p.ID = productID then { p with Stock := expr p.Stock } else p)

/-- The order item `Create` builds for a cart item. -/
def orderItemOf (itemID : UUID) (orderID : UUID) (cartItem : CartItem F) : OrderItem F :=
  { ID := itemID
    OrderID := orderID
    ProductID := cartItem.ProductID
    Quantity := cartItem.Quantity
    Price := cartItem.Price }

/-- The second loop of `Create` (lines 62-80), from the cart item at position `k`
on: inserts one order item per cart item and decrements the stock of its
product.  Stops at the first statement that fails. -/
def Create.items (env : CreateEnv) (orderID : UUID) :
    Nat → List (CartItem F) → DB F → Except Error (DB F)
  | _, [], cur => .ok cur
  | k, cartItem :: rest, cur =>
    let orderItem := orderItemOf (env.itemID k) orderID cartItem
    if env.fault = some (.insertItem k) ∨ cur.orderItems.any (fun i => i.ID = orderItem.ID) then
      .error .storage
    else
      let cur1 := { cur with orderItems := cur.orderItems ++ [orderItem] }
      if env.fault = some (.updateStock k) then .error .storage
      else
        let cur2 := { cur1 with
          products :=
            updateStock cur1.products cartItem.ProductID (fun stock => stock - cartItem.Quantity) }
        Create.items env orderID (k + 1) rest cur2

/-- The first loop of `Create` (lines 38-41). -/
def Create.totalPrice [Zero F] [Add F] [Mul F] [IntCast F] (cartItems : List (CartItem F)) : F :=
  cartItems.foldl (fun totalPrice item => totalPrice + item.Price * ((item.Quantity : Int) : F)) 0

/-- Model of `orderRepository.Create`: returns the database after the call and the
result of the call. -/
def orderRepository.Create [Zero F] [Add F] [Mul F] [IntCast F] [DecimalColumn F]
    (env : CreateEnv) (db : DB F) (userID : UUID) (req : CreateOrderRequest) :
    DB F × Except Error (OrderEntity F) :=
  let tx := Begin db
  if env.fault = some .loadCart then (tx.Rollback, .error .storage)
  else
    match First (fun c => c.ID) (fun c => c.UserID = userID) tx.cur.carts with
    | none => (tx.Rollback, .error .ErrRecordNotFound)
    | some cart =>
      let CartItems := tx.cur.cartItems.filter (fun i => i.CartID = cart.ID)
      if CartItems.length = 0 then (tx.Rollback, .error (.New emptyCartMsg))
      else
        let totalPrice := Create.totalPrice CartItems
        let order : Order F :=
          { ID := env.orderID
            UserID := userID
            TotalPrice := DecimalColumn.decimal_10_2 totalPrice
            Status := "pending"
            PaymentMethod := req.PaymentMethod
            PaymentStatus := "pending"
            ShippingMethod := req.ShippingMethod
            ShippingStatus := "pending"
            ShippingAddress := req.ShippingAddress
            TrackingNumber := ""
            Notes := req.Notes }
        if env.fault = some .insertOrder ∨ tx.cur.orders.any (fun o => o.ID = order.ID) then
          (tx.Rollback, .error .storage)
        else
          let tx1 : Tx F := { tx with cur := { tx.cur with orders := tx.cur.orders ++ [order] } }
          match Create.items env order.ID 0 CartItems tx1.cur with
          | .error err => (tx1.Rollback, .error err)
          | .ok cur2 =>
            let tx2 : Tx F := { tx1 with cur := cur2 }
            if env.fault = some .clearCart then (tx2.Rollback, .error .storage)
            else
              let tx3 : Tx F := { tx2 with cur := { tx2.cur with
                cartItems := tx2.cur.cartItems.filter (fun i => ¬ (i.CartID = cart.ID)) } }
              -- a failed commit leaves the database as it was at `Begin`
              if env.fault = some .commit then (tx3.base, .error .storage)
              else
                let db1 := tx3.Commit
                (db1, orderRepository.GetByID (env.fault = some .readBack) db1 order.ID)

/-! ## `orderRepository.Cancel` -/

/-- The database statements of `orderRepository.Cancel`. -/
inductive CancelStep where
  /-- Loading the order with its items. -/
  | loadOrder
  /-- Updating the stock of the product of the order item at position `k`. -/
  | updateStock (k : Nat)
  /-- Setting the status of the order. -/
  | updateStatus
  /-- The commit. -/
  | commit
  deriving DecidableEq, Repr

/-- The loop of `Cancel` (lines 184-189), from the order item at position `k` on:
adds the quantity of each order item to the stock of its product. -/
def Cancel.items (fault : Option CancelStep) :
    Nat → List (OrderItem F) → DB F → Except Error (DB F)
  | _, [], cur => .ok cur
  | k, item :: rest, cur =>
    if fault = some (.updateStock k) then .error .storage
    else
      let cur1 := { cur with
        products := updateStock cur.products item.ProductID (fun stock => stock + item.Quantity) }
      Cancel.items fault (k + 1) rest cur1

/-- The statement `UPDATE orders SET status = value WHERE id = orderID`. -/
def setStatus (orders : List (Order F)) (orderID : UUID) (value : String) : List (Order F) :=
  orders.map (fun o => if o.ID = orderID then { o with Status := value } else o)

/-- Model of `orderRepository.Cancel`: returns the database after the call and the
result of the call. -/
def orderRepository.Cancel (fault : Option CancelStep) (db : DB F) (id : UUID) :
    DB F × Except Error Unit :=
  let tx := Begin db
  if fault = some .loadOrder then (tx.Rollback, .error .storage)
  else
    match First (fun o => o.ID) (fun o => o.ID = id) tx.cur.orders with
    | none => (tx.Rollback, .error .ErrRecordNotFound)
    | some order =>
      let OrderItems := tx.cur.orderItems.filter (fun i => i.OrderID = order.ID)
      if order.Status ≠ "pending" then (tx.Rollback, .error (.New cannotCancelMsg))
      else
        match Cancel.items fault 0 OrderItems tx.cur with
        | .error err => (tx.Rollback, .error err)
        | .ok cur1 =>
          let tx1 : Tx F := { tx with cur := cur1 }
          if fault = some .updateStatus then (tx1.Rollback, .error .storage)
          else
            let tx2 : Tx F := { tx1 with cur := { tx1.cur with
              orders := setStatus tx1.cur.orders order.ID "cancelled" } }
            -- a failed commit leaves the database as it was at `Begin`
            if fault = some .commit then (tx2.base, .error .storage)
            else (tx2.Commit, .ok ())

/-- Model of `orderRepository.UpdateStatus` (no transaction, one statement). -/
def orderRepository.UpdateStatus (fault : Bool) (db : DB F) (id : UUID) (status : String) :
    DB F × Except Error Unit :=
  if fault then (db, .error .storage)
  else ({ db with orders := setStatus db.orders id status }, .ok ())

/-! ## `cartRepository` -/

/-- What `cartRepository.GetByUserID` returns (the preloaded products are left out). -/
structure CartEntity (F : Type) where
  ID : UUID
  UserID : UUID
  TotalPrice : F
  CartItems : List (CartItem F)
  deriving DecidableEq, Repr

/-- The database statements of `cartRepository.GetByUserID`. -/
inductive GetCartStep where
  /-- Loading the cart with its items. -/
  | loadCart
  /-- Inserting a cart row for a user who has none. -/
  | createCart
  deriving DecidableEq, Repr

/-- Model of `cartRepository.modelToEntity`. -/
def cartRepository.modelToEntity [Zero F] [Add F] [Mul F] [IntCast F]
    (cart : Cart F) (CartItems : List (CartItem F)) : CartEntity F :=
  { ID := cart.ID
    UserID := cart.UserID
    TotalPrice := Create.totalPrice CartItems
    CartItems := CartItems }

/-- Model of `cartRepository.GetByUserID`: the cart of the user, created when absent.
`newCartID` is the identifier the database gives a cart row it inserts. -/
def cartRepository.GetByUserID [Zero F] [Add F] [Mul F] [IntCast F]
    (newCartID : UUID) (fault : Option GetCartStep) (db : DB F) (userID : UUID) :
    DB F × Except Error (CartEntity F) :=
  if fault = some .loadCart then (db, .error .storage)
  else
    match First (fun c => c.ID) (fun c => c.UserID = userID) db.carts with
    | none =>
      let newCart : Cart F := { ID := newCartID, UserID := userID, TotalPrice := 0 }
      if fault = some .createCart ∨ db.carts.any (fun c => c.ID = newCart.ID) then
        (db, .error .storage)
      else
        ({ db with carts := db.carts ++ [newCart] }, .ok (cartRepository.modelToEntity newCart []))
    | some cart =>
      (db, .ok (cartRepository.modelToEntity cart
        (db.cartItems.filter (fun i => i.CartID = cart.ID))))

/-- Request body of adding to the cart (`entities.AddToCartRequest`). -/
structure AddToCartRequest where
  ProductID : UUID
  Quantity : Int
  deriving DecidableEq, Repr

/-- The database statements of `cartRepository.AddItem`. -/
inductive AddItemStep where
  /-- A statement of `GetByUserID`. -/
  | getCart (step : GetCartStep)
  /-- Loading the product. -/
  | loadProduct
  /-- Looking for a cart item of the same product. -/
  | findItem
  /-- Updating the cart item found. -/
  | updateItem
  /-- Inserting a new cart item. -/
  | insertItem
  deriving DecidableEq, Repr

/-- What the environment contributes to one call of `cartRepository.AddItem`. -/
structure AddItemEnv where
  /-- Identifier the database gives a cart row it inserts. -/
  cartID : UUID
  /-- Identifier the database gives a cart item row it inserts. -/
  itemID : UUID
  /-- Statement at which the database reports an error, if any. -/
  fault : Option AddItemStep

/-- The fault of `AddItem` as seen by its call of `GetByUserID`. -/
def AddItemEnv.getCartFault (env : AddItemEnv) : Option GetCartStep :=
  match env.fault with
  | some (.getCart step) => some step
  | _ => none

/-- Model of `cartRepository.AddItem`.  No transaction is opened: every statement takes
effect at once. -/
def cartRepository.AddItem [Zero F] [Add F] [Mul F] [IntCast F]
    (env : AddItemEnv) (db : DB F) (userID : UUID) (item : AddToCartRequest) :
    DB F × Except Error Unit :=
  match cartRepository.GetByUserID env.cartID env.getCartFault db userID with
  | (db1, .error err) => (db1, .error err)
  | (db1, .ok cart) =>
    if env.fault = some .loadProduct then (db1, .error .storage)
    else
      match First (fun p => p.ID) (fun p => p.ID = item.ProductID) db1.products with
      | none => (db1, .error .ErrRecordNotFound)
      | some product =>
        if product.Stock < item.Quantity then (db1, .error .ErrInvalidData)
        else
          -- any error of the lookup, also a storage error, leads to the insert below
          let found : Option (CartItem F) :=
            if env.fault = some .findItem then none
            else First (fun i => i.ID)
              (fun i => i.CartID = cart.ID ∧ i.ProductID = item.ProductID) db1.cartItems
          match found with
          | some existingItem =>
            let newQuantity := existingItem.Quantity + item.Quantity
            if product.Stock < newQuantity then (db1, .error .ErrInvalidData)
            else if env.fault = some .updateItem then (db1, .error .storage)
            else
              ({ db1 with cartItems := db1.cartItems.map (fun i =>
                  if i.ID = existingItem.ID then
                    { i with Quantity := newQuantity, Price := product.Price }
                  else i) }, .ok ())
          | none =>
            let cartItem : CartItem F :=
              { ID := env.itemID
                CartID := cart.ID
                ProductID := item.ProductID
                Quantity := item.Quantity
                Price := product.Price }
            if env.fault = some .insertItem ∨ db1.cartItems.any (fun i => i.ID = cartItem.ID) then
              (db1, .error .storage)
            else ({ db1 with cartItems := db1.cartItems ++ [cartItem] }, .ok ())

/-- The database statements of `cartRepository.UpdateItem`. -/
inductive UpdateItemStep where
  /-- Loading the cart item with its product. -/
  | loadItem
  /-- Updating the quantity. -/
  | update
  deriving DecidableEq, Repr

/-- Stock of the product preloaded into a cart item; a cart item whose product
is not found carries the zero product, of stock 0. -/
def preloadedStock (products : List (Product F)) (productID : UUID) : Int :=
  match First (fun p => p.ID) (fun p => p.ID = productID) products with
  | none => 0
  | some product => product.Stock

/-- Model of `cartRepository.UpdateItem`. -/
def cartRepository.UpdateItem (fault : Option UpdateItemStep) (db : DB F)
    (cartItemID : UUID) (quantity : Int) : DB F × Except Error Unit :=
  if fault = some .loadItem then (db, .error .storage)
  else
    match First (fun i => i.ID) (fun i => i.ID = cartItemID) db.cartItems with
    | none => (db, .error .ErrRecordNotFound)
    | some cartItem =>
      if preloadedStock db.products cartItem.ProductID < quantity then
        (db, .error .ErrInvalidData)
      else if fault = some .update then (db, .error .storage)
      else
        ({ db with cartItems := db.cartItems.map (fun i =>
            if i.ID = cartItem.ID then { i with Quantity := quantity } else i) }, .ok ())

/-! ## Sequences of operations -/

/-- A call of one of the repository operations that touch stock or carts,
together with what the environment contributes to it. -/
inductive Op where
  | AddItem (env : AddItemEnv) (userID : UUID) (item : AddToCartRequest)
  | UpdateItem (fault : Option UpdateItemStep) (cartItemID : UUID) (quantity : Int)
  | Create (env : CreateEnv) (userID : UUID) (req : CreateOrderRequest)
  | Cancel (fault : Option CancelStep) (id : UUID)

/-- Forgets the value an operation returns. -/
def outcome {α : Type} : Except Error α → Except Error Unit
  | .ok _ => .ok ()
  | .error err => .error err

/-- Runs one operation: the database after it and whether it failed. -/
def Op.exec [Zero F] [Add F] [Mul F] [IntCast F] [DecimalColumn F] (db : DB F) : Op → DB F × Except Error Unit
  | .AddItem env userID item => cartRepository.AddItem env db userID item
  | .UpdateItem fault cartItemID quantity => cartRepository.UpdateItem fault db cartItemID quantity
  | .Create env userID req =>
    ((orderRepository.Create env db userID req).1,
      outcome (orderRepository.Create env db userID req).2)
  | .Cancel fault id => orderRepository.Cancel fault db id

/-- Runs the operations one after the other, whether they fail or not. -/
def run [Zero F] [Add F] [Mul F] [IntCast F] [DecimalColumn F] : DB F → List Op → DB F
  | db, [] => db
  | db, op :: rest => run (op.exec db).1 rest

/-- The order items an operation that was run from `db` to `db1` has created:
the rows a `Create` has added to the table, nothing for the other operations. -/
def Op.reserved (db db1 : DB F) : Op → List (OrderItem F)
  | .Create _ _ _ => db1.orderItems.drop db.orderItems.length
  | _ => []

/-- The order items of the order an operation run from `db` has cancelled:
the items of the order of a `Cancel`, nothing for the other operations. -/
def Op.released (db : DB F) : Op → List (OrderItem F)
  | .Cancel _ id => db.orderItems.filter (fun i => i.OrderID = id)
  | _ => []

/-- The books of a run: the database reached, the order items created and the
order items of the orders cancelled. -/
structure Ledger (F : Type) where
  db : DB F
  reserved : List (OrderItem F)
  released : List (OrderItem F)
  deriving DecidableEq, Repr

/-- Runs the operations one after the other as long as they succeed and keeps
the books; nothing when an operation fails. -/
def runLedger [Zero F] [Add F] [Mul F] [IntCast F] [DecimalColumn F] : DB F → List Op → Option (Ledger F)
  | db, [] => some ⟨db, [], []⟩
  | db, op :: rest =>
    match op.exec db with
    | (_, .error _) => none
    | (db1, .ok _) =>
      match runLedger db1 rest with
      | none => none
      | some l => some ⟨l.db, op.reserved db db1 ++ l.reserved, op.released db ++ l.released⟩

/-- Sum of the quantities of the order items that reference the product. -/
def quantityOf (items : List (OrderItem F)) (productID : UUID) : Int :=
  ((items.filter (fun i => i.ProductID = productID)).map (fun i => i.Quantity)).sum

/-- The order items the second loop of `Create` inserts for the cart items from
position `k` on when no statement fails. -/
def Create.newItems (env : CreateEnv) (orderID : UUID) :
    Nat → List (CartItem F) → List (OrderItem F)
  | _, [] => []
  | k, cartItem :: rest =>
    orderItemOf (env.itemID k) orderID cartItem :: Create.newItems env orderID (k + 1) rest

/-! ## More of `cartRepository`, and the request layer of the cart -/

/-- The error the specification calls `InsufficientStock`: the cart operations
return `gorm.ErrInvalidData` for a quantity above the stock. -/
def InsufficientStock : Error := Error.ErrInvalidData

/-- The error the specification calls `NotFound`. -/
def NotFound : Error := Error.ErrRecordNotFound

/-- Model of `cartRepository.RemoveItem` (one statement); `fault` says whether it fails. -/
def cartRepository.RemoveItem (fault : Bool) (db : DB F) (cartItemID : UUID) :
    DB F × Except Error Unit :=
  if fault then (db, .error .storage)
  else ({ db with cartItems := db.cartItems.filter (fun i => ¬ (i.ID = cartItemID)) }, .ok ())

/-- The database statements of `cartRepository.ClearCart`. -/
inductive ClearCartStep where
  /-- Loading the cart. -/
  | loadCart
  /-- Deleting the cart items. -/
  | deleteItems
  deriving DecidableEq, Repr

/-- Model of `cartRepository.ClearCart`. -/
def cartRepository.ClearCart (fault : Option ClearCartStep) (db : DB F) (userID : UUID) :
    DB F × Except Error Unit :=
  if fault = some .loadCart then (db, .error .storage)
  else
    match First (fun c => c.ID) (fun c => c.UserID = userID) db.carts with
    | none => (db, .error .ErrRecordNotFound)
    | some cart =>
      if fault = some .deleteItems then (db, .error .storage)
      else
        ({ db with cartItems := db.cartItems.filter (fun i => ¬ (i.CartID = cart.ID)) }, .ok ())

/-- Request body of a cart item update (`entities.UpdateCartItemRequest`). -/
structure UpdateCartItemRequest where
  Quantity : Int
  deriving DecidableEq, Repr

/-- What `utils.ValidateStruct` decides for an `UpdateCartItemRequest`, whose
field carries the tags `required,min=1`: for an `int`, `required` holds of a
value other than 0 and `min=1` of a value of at least 1. -/
def UpdateCartItemRequest.ValidateStruct (req : UpdateCartItemRequest) : Bool :=
  req.Quantity ≠ 0 ∧ 1 ≤ req.Quantity

/-- Model of `cartService.UpdateCartItem`: hands the quantity to the repository. -/
def cartService.UpdateCartItem (fault : Option UpdateItemStep) (db : DB F) (cartItemID : UUID)
    (req : UpdateCartItemRequest) : DB F × Except Error Unit :=
  cartRepository.UpdateItem fault db cartItemID req.Quantity

def StatusOK : Nat := 200

def StatusBadRequest : Nat := 400

def StatusInternalServerError : Nat := 500

/-- Model of `CartHandler.UpdateCartItem`: the database after the request and the
status of the response.  `itemId` is the result of `uuid.Parse` on the path
parameter and `body` the result of `BodyParser`, nothing when they fail. -/
def CartHandler.UpdateCartItem (fault : Option UpdateItemStep) (db : DB F)
    (itemId : Option UUID) (body : Option UpdateCartItemRequest) : DB F × Nat :=
  match itemId with
  | none => (db, StatusBadRequest)
  | some itemID =>
    match body with
    | none => (db, StatusBadRequest)
    | some req =>
      if ¬ req.ValidateStruct then (db, StatusBadRequest)
      else
        match cartService.UpdateCartItem fault db itemID req with
        | (db1, .error _) => (db1, StatusInternalServerError)
        | (db1, .ok _) => (db1, StatusOK)

/-- A call of one of the operations that write cart items. -/
inductive CartOp where
  | AddItem (env : AddItemEnv) (userID : UUID) (item : AddToCartRequest)
  | UpdateItem (fault : Option UpdateItemStep) (cartItemID : UUID) (quantity : Int)
  | RemoveItem (fault : Bool) (cartItemID : UUID)
  | ClearCart (fault : Option ClearCartStep) (userID : UUID)
  | Create (env : CreateEnv) (userID : UUID) (req : CreateOrderRequest)

/-- The database after one operation on carts. -/
def CartOp.exec [Zero F] [Add F] [Mul F] [IntCast F] [DecimalColumn F] (db : DB F) : CartOp → DB F
  | .AddItem env userID item => (cartRepository.AddItem env db userID item).1
  | .UpdateItem fault cartItemID quantity =>
    (cartRepository.UpdateItem fault db cartItemID quantity).1
  | .RemoveItem fault cartItemID => (cartRepository.RemoveItem fault db cartItemID).1
  | .ClearCart fault userID => (cartRepository.ClearCart fault db userID).1
  | .Create env userID req => (orderRepository.Create env db userID req).1

/-- The database after the operations on carts, run one after the other. -/
def runCart [Zero F] [Add F] [Mul F] [IntCast F] [DecimalColumn F] : DB F → List CartOp → DB F
  | db, [] => db
  | db, op :: rest => runCart (op.exec db) rest

/-- The lookup of the cart item of the product in `AddItem` gets an answer from
the database. -/
def CartOp.lookupAnswered : CartOp → Bool
  | .AddItem env _ _ => env.fault ≠ some .findItem
  | _ => true

/-- No two cart items have the same cart and the same product. -/
def oneItemPerProduct (db : DB F) : Prop :=
  db.cartItems.Pairwise (fun i j => ¬ (i.CartID = j.CartID ∧ i.ProductID = j.ProductID))

instance (db : DB F) : Decidable (oneItemPerProduct db) := by
  unfold oneItemPerProduct
  infer_instance

/-- Every order item belongs to an order of the orders table (the foreign key
of `order_items.order_id`). -/
def orderItemsHaveOrder (db : DB F) : Prop :=
  ∀ i ∈ db.orderItems, ∃ o ∈ db.orders, o.ID = i.OrderID

/-! ## `transactionRepository.UpdateStatus` -/

/-- The database statements of `transactionRepository.UpdateStatus`. -/
inductive UpdateStatusStep where
  /-- Setting the status of the transaction. -/
  | updateTransaction
  /-- Loading the transaction. -/
  | loadTransaction
  /-- Setting the payment status of the order. -/
  | updateOrder
  /-- The commit. -/
  | commit
  deriving DecidableEq, Repr

/-- The `switch` of `UpdateStatus` (lines 98-108). -/
def UpdateStatus.paymentStatus (status : String) : String :=
  if status = "completed" then "paid"
  else if status = "failed" then "failed"
  else if status = "cancelled" then "cancelled"
  else "pending"

/-- The statement `UPDATE transactions SET status = value WHERE id = id`. -/
def setTransactionStatus (transactions : List (Transaction F)) (id : UUID) (value : String) :
    List (Transaction F) :=
  transactions.map (fun t => if t.ID = id then { t with Status := value } else t)

/-- The statement `UPDATE orders SET payment_status = value WHERE id = orderID`. -/
def setPaymentStatus (orders : List (Order F)) (orderID : UUID) (value : String) :
    List (Order F) :=
  orders.map (fun o => if o.ID = orderID then { o with PaymentStatus := value } else o)

/-- Model of `transactionRepository.UpdateStatus`. -/
def transactionRepository.UpdateStatus (fault : Option UpdateStatusStep) (db : DB F) (id : UUID)
    (status : String) : DB F × Except Error Unit :=
  let tx := Begin db
  if fault = some .updateTransaction then (tx.Rollback, .error .storage)
  else
    let tx1 : Tx F := { tx with cur := { tx.cur with
      transactions := setTransactionStatus tx.cur.transactions id status } }
    if fault = some .loadTransaction then (tx1.Rollback, .error .storage)
    else
      match First (fun t => t.ID) (fun t => t.ID = id) tx1.cur.transactions with
      | none => (tx1.Rollback, .error .ErrRecordNotFound)
      | some transaction =>
        let paymentStatus := UpdateStatus.paymentStatus status
        if fault = some .updateOrder then (tx1.Rollback, .error .storage)
        else
          let tx2 : Tx F := { tx1 with cur := { tx1.cur with
            orders := setPaymentStatus tx1.cur.orders transaction.OrderID paymentStatus } }
          -- a failed commit leaves the database as it was at `Begin`
          if fault = some .commit then (tx2.base, .error .storage)
          else (tx2.Commit, .ok ())

/-- Model of `transactionRepository.Cancel`. -/
def transactionRepository.Cancel (fault : Option UpdateStatusStep) (db : DB F) (id : UUID) :
    DB F × Except Error Unit :=
  transactionRepository.UpdateStatus fault db id "cancelled"

/-! ## `transactionRepository.Create` and `paymentService` -/

/-- Request body of a payment (`entities.CreatePaymentRequest`). -/
structure CreatePaymentRequest where
  OrderID : UUID
  PaymentMethod : String
  PaymentData : String
  deriving DecidableEq, Repr

/-- The database statements of `transactionRepository.Create`. -/
inductive CreateTransactionStep where
  /-- Loading the order. -/
  | loadOrder
  /-- Inserting the transaction row. -/
  | insert
  deriving DecidableEq, Repr

/-- What the environment contributes to one call of `transactionRepository.Create`. -/
structure CreateTransactionEnv where
  /-- Identifier the database gives the transaction row. -/
  id : UUID
  /-- The string `fmt.Sprintf("TXN_%d_%s", ...)` builds from the clock and a new UUID. -/
  transactionID : String
  /-- Statement at which the database reports an error, if any. -/
  fault : Option CreateTransactionStep

/-- Model of `transactionRepository.Create`. -/
def transactionRepository.Create (env : CreateTransactionEnv) (db : DB F)
    (req : CreatePaymentRequest) : DB F × Except Error (Transaction F) :=
  if env.fault = some .loadOrder then (db, .error .storage)
  else
    match First (fun o => o.ID) (fun o => o.ID = req.OrderID) db.orders with
    | none => (db, .error .ErrRecordNotFound)
    | some order =>
      let transaction : Transaction F :=
        { ID := env.id
          OrderID := req.OrderID
          Amount := order.TotalPrice
          PaymentMethod := req.PaymentMethod
          Status := "pending"
          TransactionID := env.transactionID
          PaymentData := req.PaymentData }
      if env.fault = some .insert ∨ db.transactions.any (fun t => t.ID = transaction.ID) then
        (db, .error .storage)
      else ({ db with transactions := db.transactions ++ [transaction] }, .ok transaction)

/-- Model of `transactionRepository.GetByID`; `fault` says whether the query fails. -/
def transactionRepository.GetByID (fault : Bool) (db : DB F) (id : UUID) :
    Except Error (Transaction F) :=
  if fault then .error .storage
  else
    match First (fun t => t.ID) (fun t => t.ID = id) db.transactions with
    | none => .error .ErrRecordNotFound
    | some transaction => .ok transaction

/-- Request body of a payment verification (`entities.VerifyPaymentRequest`). -/
structure VerifyPaymentRequest where
  TransactionID : String
  PaymentData : String
  deriving DecidableEq, Repr

/-- Model of `paymentService.VerifyPayment`; `faultGet` says whether the read of
the transaction fails and `fault` where `UpdateStatus` fails. -/
def paymentService.VerifyPayment (faultGet : Bool) (fault : Option UpdateStatusStep)
    (db : DB F) (id : UUID) (req : VerifyPaymentRequest) : DB F × Except Error Unit :=
  match transactionRepository.GetByID faultGet db id with
  | .error err => (db, .error err)
  | .ok transaction =>
    if transaction.TransactionID = req.TransactionID then
      transactionRepository.UpdateStatus fault db id "completed"
    else
      transactionRepository.UpdateStatus fault db id "failed"

/-- Model of `paymentService.CancelPayment`. -/
def paymentService.CancelPayment (fault : Option UpdateStatusStep) (db : DB F) (id : UUID) :
    DB F × Except Error Unit :=
  transactionRepository.Cancel fault db id

/-! ## `orderService` and the request layer of orders and carts -/

/-- Model of `orderService.CreateOrder`. -/
def orderService.CreateOrder [Zero F] [Add F] [Mul F] [IntCast F] [DecimalColumn F] (env : CreateEnv) (db : DB F)
    (userID : UUID) (req : CreateOrderRequest) : DB F × Except Error (OrderEntity F) :=
  orderRepository.Create env db userID req

/-- Model of `orderService.CancelOrder`. -/
def orderService.CancelOrder (fault : Option CancelStep) (db : DB F) (id : UUID) :
    DB F × Except Error Unit :=
  orderRepository.Cancel fault db id

/-- Request body of an order status update (`entities.UpdateOrderStatusRequest`). -/
structure UpdateOrderStatusRequest where
  Status : String
  deriving DecidableEq, Repr

/-- Model of `orderService.UpdateOrderStatus`. -/
def orderService.UpdateOrderStatus (fault : Bool) (db : DB F) (id : UUID)
    (req : UpdateOrderStatusRequest) : DB F × Except Error Unit :=
  orderRepository.UpdateStatus fault db id req.Status

/-- Model of `cartService.AddToCart`. -/
def cartService.AddToCart [Zero F] [Add F] [Mul F] [IntCast F] (env : AddItemEnv) (db : DB F)
    (userID : UUID) (req : AddToCartRequest) : DB F × Except Error Unit :=
  cartRepository.AddItem env db userID req

/-- What `utils.ValidateStruct` decides for a `CreateOrderRequest`: the three
fields tagged `required` are not empty. -/
def CreateOrderRequest.ValidateStruct (req : CreateOrderRequest) : Bool :=
  req.PaymentMethod ≠ "" ∧ req.ShippingMethod ≠ "" ∧ req.ShippingAddress ≠ ""

/-- What `utils.ValidateStruct` decides for an `AddToCartRequest`: the product
id, tagged `required`, is not `uuid.Nil`, and the quantity, tagged
`required,min=1`, is not 0 and at least 1. -/
def AddToCartRequest.ValidateStruct (req : AddToCartRequest) : Bool :=
  req.ProductID ≠ 0 ∧ req.Quantity ≠ 0 ∧ 1 ≤ req.Quantity

def StatusCreated : Nat := 201

def StatusNotFound : Nat := 404

/-- Model of `OrderHandler.CreateOrder`: the database after the request and the
status of the response.  `body` is the result of `BodyParser`, nothing when it
fails. -/
def OrderHandler.CreateOrder [Zero F] [Add F] [Mul F] [IntCast F] [DecimalColumn F] (env : CreateEnv) (db : DB F)
    (userID : UUID) (body : Option CreateOrderRequest) : DB F × Nat :=
  match body with
  | none => (db, StatusBadRequest)
  | some req =>
    if ¬ req.ValidateStruct then (db, StatusBadRequest)
    else
      match orderService.CreateOrder env db userID req with
      | (db1, .error _) => (db1, StatusInternalServerError)
      | (db1, .ok _) => (db1, StatusCreated)

/-- Model of `OrderHandler.CancelOrder`.  `id` is the result of `uuid.Parse` on the
path parameter, nothing when it fails. -/
def OrderHandler.CancelOrder (fault : Option CancelStep) (db : DB F) (id : Option UUID) :
    DB F × Nat :=
  match id with
  | none => (db, StatusBadRequest)
  | some id =>
    match orderService.CancelOrder fault db id with
    | (db1, .error _) => (db1, StatusInternalServerError)
    | (db1, .ok _) => (db1, StatusOK)

/-- Model of `CartHandler.AddToCart`. -/
def CartHandler.AddToCart [Zero F] [Add F] [Mul F] [IntCast F] (env : AddItemEnv) (db : DB F)
    (userID : UUID) (body : Option AddToCartRequest) : DB F × Nat :=
  match body with
  | none => (db, StatusBadRequest)
  | some req =>
    if ¬ req.ValidateStruct then (db, StatusBadRequest)
    else
      match cartService.AddToCart env db userID req with
      | (db1, .error _) => (db1, StatusInternalServerError)
      | (db1, .ok _) => (db1, StatusOK)

/-! ## `productRepository.Update`

The table of product images is not part of `DB`; the statements on it count
only by their failure, which rolls the transaction back. -/

/-- Request body of a product update (`entities.UpdateProductRequest`). -/
structure UpdateProductRequest (F : Type) where
  Name : String
  Description : String
  Price : F
  Stock : Int
  Image : String
  CategoryID : UUID
  Images : List String
  deriving DecidableEq, Repr

/-- The database statements of `productRepository.Update`. -/
inductive UpdateProductStep where
  /-- Updating the product row. -/
  | updateProduct
  /-- Deleting the images of the product. -/
  | deleteImages
  /-- Inserting the image at position `k` of the request. -/
  | insertImage (k : Nat)
  /-- The commit. -/
  | commit
  deriving DecidableEq, Repr

/-- The map `updates` of `Update` (lines 163-182), as the row it makes of a row:
a column is set when the request field passes its test; the price of the
request is stored in a `decimal(10,2)` column. -/
def Update.updates [Zero F] [LT F] [DecidableRel (fun a b : F => a < b)] [DecimalColumn F]
    (req : UpdateProductRequest F) (p : Product F) : Product F :=
  { ID := p.ID
    Name := if req.Name ≠ "" then req.Name else p.Name
    Description := if req.Description ≠ "" then req.Description else p.Description
    Price := if 0 < req.Price then DecimalColumn.decimal_10_2 req.Price else p.Price
    Stock := if req.Stock ≥ 0 then req.Stock else p.Stock
    Image := if req.Image ≠ "" then req.Image else p.Image
    CategoryID := if req.CategoryID ≠ 0 then req.CategoryID else p.CategoryID }

/-- Whether a statement on the images of a request with `n` images fails. -/
def Update.imagesFail (fault : Option UpdateProductStep) (n : Nat) : Bool :=
  match fault with
  | some .deleteImages => true
  | some (.insertImage k) => k < n
  | _ => false

/-- Model of `productRepository.Update`. -/
def productRepository.Update [Zero F] [LT F] [DecidableRel (fun a b : F => a < b)]
    [DecimalColumn F]
    (fault : Option UpdateProductStep) (db : DB F) (id : UUID) (req : UpdateProductRequest F) :
    DB F × Except Error Unit :=
  let tx := Begin db
  if fault = some .updateProduct then (tx.Rollback, .error .storage)
  else
    let tx1 : Tx F := { tx with cur := { tx.cur with
      products := tx.cur.products.map (fun p => if p.ID = id then Update.updates req p else p) } }
    if req.Images.length > 0 ∧ Update.imagesFail fault req.Images.length then
      (tx1.Rollback, .error .storage)
    -- a failed commit leaves the database as it was at `Begin`
    else if fault = some .commit then (tx1.base, .error .storage)
    else (tx1.Commit, .ok ())

/-! ## Example data

Prices are whole numbers here.  Product 1 costs 500 and has one unit in stock.
User 100 owns cart 10, user 101 owns cart 11. -/

/-- Whole amounts are stored as they are. -/
instance : DecimalColumn Int := ⟨fun x => x⟩

def exProduct : Product Int :=
  { ID := 1, Name := "P", Description := "", Price := 500, Stock := 1, Image := "",
    CategoryID := 7 }

/-- Both carts are empty. -/
def exEmpty : DB Int :=
  { products := [exProduct]
    carts := [{ ID := 10, UserID := 100, TotalPrice := 0 },
              { ID := 11, UserID := 101, TotalPrice := 0 }]
    cartItems := []
    orders := []
    orderItems := []
    transactions := [] }

/-- Cart 10 holds two units of product 1, put there at price 300. -/
def exDB : DB Int :=
  { exEmpty with
    cartItems := [{ ID := 20, CartID := 10, ProductID := 1, Quantity := 2, Price := 300 }] }

def exReq : CreateOrderRequest :=
  { PaymentMethod := "card", ShippingMethod := "post", ShippingAddress := "home", Notes := "" }

/-- The database hands out order 50 and order items 60, 61, ...; no statement fails. -/
def exEnv : CreateEnv := { orderID := 50, itemID := fun k => 60 + k, fault := none }

/-- The database hands out order 51 and order items 70, 71, ...; no statement fails. -/
def exEnv2 : CreateEnv := { orderID := 51, itemID := fun k => 70 + k, fault := none }

/-- Both users put the last unit of product 1 into their carts, then both order. -/
def exOversell : List Op :=
  [ .AddItem { cartID := 12, itemID := 21, fault := none } 100 { ProductID := 1, Quantity := 1 },
    .AddItem { cartID := 13, itemID := 22, fault := none } 101 { ProductID := 1, Quantity := 1 },
    .Create exEnv 100 exReq,
    .Create exEnv2 101 exReq ]

/-- User 100 orders the cart of `exDB` and cancels the order. -/
def exCreateCancel : List Op := [.Create exEnv 100 exReq, .Cancel none 50]

/-- The order of `exEnv` with status `status`. -/
def exOrder (status : String) : Order Int :=
  { ID := 50, UserID := 100, TotalPrice := 600, Status := status, PaymentMethod := "card",
    PaymentStatus := "pending", ShippingMethod := "post", ShippingStatus := "pending",
    ShippingAddress := "home", TrackingNumber := "", Notes := "" }

/-- The order item of `exEnv` for the cart item of `exDB`. -/
def exOrderItem : OrderItem Int :=
  { ID := 60, OrderID := 50, ProductID := 1, Quantity := 2, Price := 300 }

/-- The database `exDB` after user 100 has ordered. -/
def exOrdered (status : String) : DB Int :=
  { products := [{ exProduct with Stock := -1 }]
    carts := exEmpty.carts
    cartItems := []
    orders := [exOrder status]
    orderItems := [exOrderItem]
    transactions := [] }

/-- A second product, of price 200, with five units in stock. -/
def exProduct2 : Product Int :=
  { ID := 2, Name := "Q", Description := "", Price := 200, Stock := 5, Image := "",
    CategoryID := 7 }

/-- Cart 10 holds one unit of product 1 and three units of product 2. -/
def exTwo : DB Int :=
  { exEmpty with
    products := [exProduct, exProduct2]
    cartItems := [{ ID := 20, CartID := 10, ProductID := 1, Quantity := 1, Price := 500 },
                  { ID := 21, CartID := 10, ProductID := 2, Quantity := 3, Price := 200 }] }

/-- Products 1 and 2 have 3 and 4 units in stock; order 50 of user 100 has the
status `status` and two units of product 1 and one unit of product 2. -/
def exPlaced (status : String) (stock1 stock2 : Int) : DB Int :=
  { products := [{ exProduct with Stock := stock1 }, { exProduct2 with Stock := stock2 }]
    carts := exEmpty.carts
    cartItems := []
    orders := [exOrder status]
    orderItems := [{ ID := 60, OrderID := 50, ProductID := 1, Quantity := 2, Price := 200 },
                   { ID := 61, OrderID := 50, ProductID := 2, Quantity := 1, Price := 200 }]
    transactions := [] }

/-- Product 1 has ten units in stock and costs 500; cart 10 of user 100 holds
four units of it, put there at price 300. -/
def exMerge : DB Int :=
  { exEmpty with
    products := [{ exProduct with Stock := 10 }]
    cartItems := [{ ID := 20, CartID := 10, ProductID := 1, Quantity := 4, Price := 300 }] }

/-- The database assigns cart 12 and cart item 21; no statement fails. -/
def exAdd : AddItemEnv := { cartID := 12, itemID := 21, fault := none }

/-- Transaction 80 of order 50, with the status `status`. -/
def exTransaction (status : String) : Transaction Int :=
  { ID := 80, OrderID := 50, Amount := 600, PaymentMethod := "card", Status := status,
    TransactionID := "TXN_1_abcdefgh", PaymentData := "" }

/-- The database `exOrdered` with transaction 80 for order 50, the transaction
having the status `status` and the order the payment status `paymentStatus`. -/
def exPayment (status paymentStatus : String) : DB Int :=
  { exOrdered "pending" with
    orders := [{ exOrder "pending" with PaymentStatus := paymentStatus }]
    transactions := [exTransaction status] }

/-- The database assigns transaction 80 and the identifier "TXN_1_aaaaaaaa". -/
def exTxn1 : CreateTransactionEnv := { id := 80, transactionID := "TXN_1_aaaaaaaa", fault := none }

/-- The database assigns transaction 81 and the identifier "TXN_2_bbbbbbbb". -/
def exTxn2 : CreateTransactionEnv := { id := 81, transactionID := "TXN_2_bbbbbbbb", fault := none }

/-- A payment request for order 50. -/
def exPay : CreatePaymentRequest := { OrderID := 50, PaymentMethod := "card", PaymentData := "" }

/-- The database `exOrdered` after two payment requests for order 50. -/
def exTwoPayments : DB Int :=
  (transactionRepository.Create exTxn2
    (transactionRepository.Create exTxn1 (exOrdered "pending") exPay).1 exPay).1

/-- The database `exTwoPayments` after the second transaction was verified with
its identifier. -/
def exPaid : DB Int :=
  (paymentService.VerifyPayment false none exTwoPayments 81
    { TransactionID := "TXN_2_bbbbbbbb", PaymentData := "" }).1

/-- The database `exPaid` after the first transaction was verified with another
identifier. -/
def exRegressed : DB Int :=
  (paymentService.VerifyPayment false none exPaid 80
    { TransactionID := "TXN_0_cccccccc", PaymentData := "" }).1

/-- Product 1 has one unit in stock; the carts of users 100 and 101 hold one
unit of it each. -/
def exLastUnit : DB Int :=
  { exEmpty with
    cartItems := [{ ID := 20, CartID := 10, ProductID := 1, Quantity := 1, Price := 500 },
                  { ID := 21, CartID := 11, ProductID := 1, Quantity := 1, Price := 500 }] }

/-- A stand-in for `float64` in examples where rounding shows: binary fixed
point numbers with ten binary places, counted in units of 1/1024.  Sums are
exact; products and conversions round to the nearest unit. -/
structure Fixed where
  raw : Int
  deriving DecidableEq, Repr

instance : Zero Fixed := ⟨⟨0⟩⟩

instance : Add Fixed := ⟨fun a b => ⟨a.raw + b.raw⟩⟩

instance : Mul Fixed := ⟨fun a b => ⟨(a.raw * b.raw + 512) / 1024⟩⟩

instance : IntCast Fixed := ⟨fun n => ⟨n * 1024⟩⟩

instance : LT Fixed := ⟨fun a b => a.raw < b.raw⟩

instance : DecidableRel (fun a b : Fixed => a < b) := fun a b => Int.decLt a.raw b.raw

/-- The `Fixed` nearest to an amount given in thousandths. -/
def Fixed.ofThousandths (n : Int) : Fixed := ⟨(n * 1024 + 500) / 1000⟩

/-- The number of hundredths nearest to a `Fixed`. -/
def Fixed.hundredths (a : Fixed) : Int := (a.raw * 100 + 512) / 1024

/-- A `Fixed` goes into a `decimal(10,2)` column as the nearest number of
hundredths and comes back as the `Fixed` nearest to that. -/
instance : DecimalColumn Fixed := ⟨fun a => Fixed.ofThousandths (a.hundredths * 10)⟩

/-- Product 1 costs 0.10 and has five units in stock; cart 10 of user 100 holds
three units of it at the price 0.10.  The price 0.10 is the `Fixed` of 102
units, three times that 306 units, and 0.30 the `Fixed` of 307 units. -/
def exCents : DB Fixed :=
  { products := [{ ID := 1, Name := "P", Description := "", Price := Fixed.ofThousandths 100,
                   Stock := 5, Image := "", CategoryID := 7 }]
    carts := [{ ID := 10, UserID := 100, TotalPrice := 0 }]
    cartItems := [{ ID := 20, CartID := 10, ProductID := 1, Quantity := 3,
                    Price := Fixed.ofThousandths 100 }]
    orders := []
    orderItems := []
    transactions := [] }

/-- An update request that names the price 19.999 only: every other field, the
stock too, has the zero value of its type. -/
def exReprice : UpdateProductRequest Fixed :=
  { Name := "", Description := "", Price := Fixed.ofThousandths 19999, Stock := 0, Image := "",
    CategoryID := 0, Images := [] }

/-- The order of `exEnv` for the cart of `exCents`: the total is 0.30. -/
def exCentsOrder : Order Fixed :=
  { ID := 50, UserID := 100, TotalPrice := Fixed.ofThousandths 300, Status := "pending",
    PaymentMethod := "card", PaymentStatus := "pending", ShippingMethod := "post",
    ShippingStatus := "pending", ShippingAddress := "home", TrackingNumber := "", Notes := "" }

/-- The order item of `exEnv` for the cart item of `exCents`. -/
def exCentsItem : OrderItem Fixed :=
  { ID := 60, OrderID := 50, ProductID := 1, Quantity := 3, Price := Fixed.ofThousandths 100 }

/-- The database `exCents` after user 100 has ordered. -/
def exCentsOrdered : DB Fixed :=
  { products := [{ ID := 1, Name := "P", Description := "", Price := Fixed.ofThousandths 100,
                   Stock := 2, Image := "", CategoryID := 7 }]
    carts := exCents.carts
    cartItems := []
    orders := [exCentsOrder]
    orderItems := [exCentsItem]
    transactions := [] }

/-! ## Lemmas on queries -/

theorem pickFirst_foldl_some {α : Type} (key : α → UUID) (rows : List α) (b : α) :
    ∃ x, rows.foldl (pickFirst key) (some b) = some x ∧ (x = b ∨ x ∈ rows) := by
  induction rows generalizing b with
  | nil => exact ⟨b, rfl, Or.inl rfl⟩
  | cons r rest ih =>
    simp only [List.foldl_cons, pickFirst]
    by_cases h : key r < key b
    · rw [if_pos h]
      obtain ⟨x, hx, hmem⟩ := ih r
      refine ⟨x, hx, Or.inr ?_⟩
      rcases hmem with h1 | h1
      · simp [h1]
      · simp [h1]
    · rw [if_neg h]
      obtain ⟨x, hx, hmem⟩ := ih b
      refine ⟨x, hx, ?_⟩
      rcases hmem with h1 | h1
      · exact Or.inl h1
      · exact Or.inr (by simp [h1])

theorem First_eq_none_iff {α : Type} (key : α → UUID) (cond : α → Bool) (rows : List α) :
    First key cond rows = none ↔ rows.filter cond = [] := by
  unfold First
  constructor
  · intro h
    cases hf : rows.filter cond with
    | nil => rfl
    | cons r rest =>
      rw [hf] at h
      simp only [List.foldl_cons, pickFirst] at h
      obtain ⟨x, hx, _⟩ := pickFirst_foldl_some key rest r
      rw [hx] at h
      exact absurd h (by simp)
  · intro h
    rw [h]
    rfl

theorem First_some_mem {α : Type} (key : α → UUID) (cond : α → Bool) (rows : List α) (x : α)
    (h : First key cond rows = some x) : x ∈ rows ∧ cond x = true := by
  unfold First at h
  cases hf : rows.filter cond with
  | nil =>
    rw [hf] at h
    exact absurd h (by simp)
  | cons r rest =>
    rw [hf] at h
    simp only [List.foldl_cons, pickFirst] at h
    obtain ⟨y, hy, hmem⟩ := pickFirst_foldl_some key rest r
    rw [hy] at h
    have hxy : y = x := by simpa using h
    subst hxy
    have hin : y ∈ rows.filter cond := by
      rw [hf]
      rcases hmem with h1 | h1
      · simp [h1]
      · simp [h1]
    exact List.mem_filter.mp hin

theorem First_of_filter_singleton {α : Type} (key : α → UUID) (cond : α → Bool)
    (rows : List α) (x : α) (h : rows.filter cond = [x]) : First key cond rows = some x := by
  unfold First
  rw [h]
  rfl

theorem First_isSome_of_mem {α : Type} (key : α → UUID) (cond : α → Bool) (rows : List α)
    (x : α) (hx : x ∈ rows) (hc : cond x = true) : ∃ y, First key cond rows = some y := by
  cases h : First key cond rows with
  | some y => exact ⟨y, rfl⟩
  | none =>
    have := (First_eq_none_iff key cond rows).mp h
    have hin : x ∈ rows.filter cond := List.mem_filter.mpr ⟨hx, hc⟩
    rw [this] at hin
    exact absurd hin (by simp)

/-! ## Lemmas on the loops -/

theorem quantityOf_nil (productID : UUID) : quantityOf ([] : List (OrderItem F)) productID = 0 := by
  simp [quantityOf]

theorem quantityOf_cons (i : OrderItem F) (items : List (OrderItem F)) (productID : UUID) :
    quantityOf (i :: items) productID
      = (if i.ProductID = productID then i.Quantity else 0) + quantityOf items productID := by
  unfold quantityOf
  by_cases h : i.ProductID = productID
  · simp [List.filter_cons, h]
  · simp [List.filter_cons, h]

theorem quantityOf_append (xs ys : List (OrderItem F)) (productID : UUID) :
    quantityOf (xs ++ ys) productID = quantityOf xs productID + quantityOf ys productID := by
  simp [quantityOf, List.filter_append, List.map_append, List.sum_append]

theorem Create_newItems_length (env : CreateEnv) (orderID : UUID) (k : Nat)
    (items : List (CartItem F)) : (Create.newItems env orderID k items).length = items.length := by
  induction items generalizing k with
  | nil => rfl
  | cons c rest ih => simp [Create.newItems, ih]

theorem Create_newItems_fields (env : CreateEnv) (orderID : UUID) (k : Nat)
    (items : List (CartItem F)) :
    (Create.newItems env orderID k items).map (fun i => (i.ProductID, i.Quantity, i.Price))
      = items.map (fun c => (c.ProductID, c.Quantity, c.Price)) := by
  induction items generalizing k with
  | nil => rfl
  | cons c rest ih => simp [Create.newItems, orderItemOf, ih]

theorem Create_newItems_orderID (env : CreateEnv) (orderID : UUID) (k : Nat)
    (items : List (CartItem F)) :
    ∀ i ∈ Create.newItems env orderID k items, i.OrderID = orderID := by
  induction items generalizing k with
  | nil => intro i hi; simp [Create.newItems] at hi
  | cons c rest ih =>
    intro i hi
    simp only [Create.newItems, List.mem_cons] at hi
    rcases hi with h | h
    · rw [h]; rfl
    · exact ih (k + 1) i h

/-- A successful run of the second loop of `Create` appends the new order items
and subtracts from the stock of each product the quantities ordered of it; the
other tables stay as they are. -/
theorem Create_items_ok (env : CreateEnv) (orderID : UUID) (k : Nat) (items : List (CartItem F))
    (cur cur1 : DB F) (h : Create.items env orderID k items cur = .ok cur1) :
    cur1.orderItems = cur.orderItems ++ Create.newItems env orderID k items
    ∧ cur1.products = cur.products.map (fun p =>
        { p with Stock := p.Stock - quantityOf (Create.newItems env orderID k items) p.ID })
    ∧ cur1.carts = cur.carts ∧ cur1.cartItems = cur.cartItems
    ∧ cur1.orders = cur.orders ∧ cur1.transactions = cur.transactions := by
  induction items generalizing k cur with
  | nil =>
    simp only [Create.items, Except.ok.injEq] at h
    subst h
    simp [Create.newItems, quantityOf_nil]
  | cons c rest ih =>
    simp only [Create.items] at h
    split at h
    · exact absurd h (by simp)
    · split at h
      · exact absurd h (by simp)
      · obtain ⟨h1, h2, h3, h4, h5, h6⟩ := ih _ _ h
        refine ⟨?_, ?_, h3, h4, h5, h6⟩
        · rw [h1]; simp [Create.newItems]
        · rw [h2]
          simp only [updateStock, List.map_map]
          apply List.map_congr_left
          intro p _
          simp only [Function.comp, Create.newItems, quantityOf_cons, orderItemOf]
          by_cases hp : p.ID = c.ProductID
          · have hp2 : c.ProductID = p.ID := hp.symm
            simp only [hp, if_true]
            congr 1
            omega
          · have hp2 : ¬ c.ProductID = p.ID := fun e => hp e.symm
            simp only [hp, hp2, if_false]
            congr 1
            omega

/-- The second loop of `Create` fails with a storage error only. -/
theorem Create_items_error (env : CreateEnv) (orderID : UUID) (k : Nat)
    (items : List (CartItem F)) (cur : DB F) (err : Error)
    (h : Create.items env orderID k items cur = .error err) : err = .storage := by
  induction items generalizing k cur with
  | nil => simp [Create.items] at h
  | cons c rest ih =>
    simp only [Create.items] at h
    split at h
    · simpa using h.symm
    · split at h
      · simpa using h.symm
      · exact ih _ _ h

/-- The second loop of `Create` fails when a statement of one of its rounds does. -/
theorem Create_items_fault (env : CreateEnv) (orderID : UUID) (k j : Nat)
    (items : List (CartItem F)) (cur : DB F)
    (hf : env.fault = some (.insertItem j) ∨ env.fault = some (.updateStock j))
    (hk : k ≤ j) (hj : j < k + items.length) :
    Create.items env orderID k items cur = .error .storage := by
  induction items generalizing k cur with
  | nil => simp at hj; omega
  | cons c rest ih =>
    simp only [Create.items]
    split
    · rfl
    · rename_i hno
      split
      · rfl
      · rename_i hno2
        have hkj : k ≠ j := by
          intro e
          subst e
          rcases hf with hf | hf
          · exact hno (Or.inl hf)
          · exact hno2 hf
        apply ih
        · omega
        · simp only [List.length_cons] at hj
          omega

/-! ## Lemmas on `Create` and `Cancel` -/

theorem GetByID_appended (db : DB F) (order : Order F)
    (hnew : db.orders.any (fun o => o.ID = order.ID) = false) (orders : List (Order F))
    (ho : orders = db.orders ++ [order]) (db1 : DB F) (h1 : db1.orders = orders) :
    orderRepository.GetByID false db1 order.ID
      = .ok { order := order
              OrderItems := db1.orderItems.filter (fun i => i.OrderID = order.ID)
              Transactions := db1.transactions.filter (fun t => t.OrderID = order.ID) } := by
  have hf : db1.orders.filter (fun o => decide (o.ID = order.ID)) = [order] := by
    rw [h1, ho, List.filter_append]
    have : db.orders.filter (fun o => decide (o.ID = order.ID)) = [] := by
      rw [List.filter_eq_nil_iff]
      intro o ho2
      rw [List.any_eq_false] at hnew
      exact hnew o ho2
    rw [this]
    simp
  simp only [orderRepository.GetByID]
  rw [First_of_filter_singleton _ _ _ _ hf]
  simp

/-- What a call of `Create` that returns an order has done. -/
theorem Create_ok [Zero F] [Add F] [Mul F] [IntCast F] [DecimalColumn F] (env : CreateEnv) (db db1 : DB F)
    (userID : UUID) (req : CreateOrderRequest) (entity : OrderEntity F)
    (h : orderRepository.Create env db userID req = (db1, .ok entity)) :
    ∃ cart, First (fun c => c.ID) (fun c => c.UserID = userID) db.carts = some cart
      ∧ db.cartItems.filter (fun i => i.CartID = cart.ID) ≠ []
      ∧ entity.order =
          { ID := env.orderID
            UserID := userID
            TotalPrice := DecimalColumn.decimal_10_2
              (Create.totalPrice (db.cartItems.filter (fun i => i.CartID = cart.ID)))
            Status := "pending"
            PaymentMethod := req.PaymentMethod
            PaymentStatus := "pending"
            ShippingMethod := req.ShippingMethod
            ShippingStatus := "pending"
            ShippingAddress := req.ShippingAddress
            TrackingNumber := ""
            Notes := req.Notes }
      ∧ db.orders.any (fun o => o.ID = env.orderID) = false
      ∧ db1.orders = db.orders ++ [entity.order]
      ∧ db1.orderItems = db.orderItems
          ++ Create.newItems env env.orderID 0 (db.cartItems.filter (fun i => i.CartID = cart.ID))
      ∧ db1.products = db.products.map (fun p =>
          { p with Stock := p.Stock - quantityOf (Create.newItems env env.orderID 0
              (db.cartItems.filter (fun i => i.CartID = cart.ID))) p.ID })
      ∧ db1.cartItems = db.cartItems.filter (fun i => ¬ (i.CartID = cart.ID))
      ∧ db1.carts = db.carts ∧ db1.transactions = db.transactions
      ∧ entity.OrderItems = db1.orderItems.filter (fun i => i.OrderID = env.orderID) := by
  simp only [orderRepository.Create, Begin, Tx.Rollback, Tx.Commit] at h
  split at h
  · simp at h
  · rename_i hf1
    split at h
    · simp at h
    · rename_i cart hcart
      refine ⟨cart, hcart, ?_⟩
      split at h
      · simp at h
      · rename_i hlen
        split at h
        · simp at h
        · rename_i hins
          split at h
          · simp at h
          · rename_i cur2 hitems
            split at h
            · simp at h
            · rename_i hf5
              split at h
              · simp at h
              · rename_i hf6
                obtain ⟨i1, i2, i3, i4, i5, i6⟩ := Create_items_ok _ _ _ _ _ _ hitems
                simp only [Prod.mk.injEq] at h
                obtain ⟨hdb, hent⟩ := h
                have hnew : db.orders.any (fun o => decide (o.ID = env.orderID)) = false := by
                  cases hb : db.orders.any (fun o => decide (o.ID = env.orderID)) with
                  | false => rfl
                  | true => exact absurd (Or.inr hb) hins
                have hrb : decide (env.fault = some CreateStep.readBack) = false := by
                  cases hb : decide (env.fault = some CreateStep.readBack) with
                  | false => rfl
                  | true =>
                    rw [hb] at hent
                    simp [orderRepository.GetByID] at hent
                rw [hrb, hdb] at hent
                have hg := GetByID_appended db
                  { ID := env.orderID, UserID := userID,
                    TotalPrice := DecimalColumn.decimal_10_2 (Create.totalPrice
                      (List.filter (fun i => decide (i.CartID = cart.ID)) db.cartItems)),
                    Status := "pending", PaymentMethod := req.PaymentMethod,
                    PaymentStatus := "pending", ShippingMethod := req.ShippingMethod,
                    ShippingStatus := "pending", ShippingAddress := req.ShippingAddress,
                    TrackingNumber := "", Notes := req.Notes } hnew _ rfl db1
                    (by rw [← hdb]; exact i5)
                rw [hg] at hent
                simp only [Except.ok.injEq] at hent
                subst hent
                subst hdb
                refine ⟨?_, rfl, hnew, i5, i1, i2, ?_, i3, i6, rfl⟩
                · intro hnil
                  exact hlen (by rw [hnil]; rfl)
                · simp only [i4]

/-- A call of `Create` that returns an error has left the database as it was,
unless the error comes from the read after the commit. -/
theorem Create_error_unchanged [Zero F] [Add F] [Mul F] [IntCast F] [DecimalColumn F] (env : CreateEnv)
    (db db1 : DB F) (userID : UUID) (req : CreateOrderRequest) (err : Error)
    (h : orderRepository.Create env db userID req = (db1, .error err))
    (hrb : env.fault ≠ some .readBack) : db1 = db := by
  simp only [orderRepository.Create, Begin, Tx.Rollback, Tx.Commit] at h
  split at h
  · simp only [Prod.mk.injEq] at h; exact h.1.symm
  · split at h
    · simp only [Prod.mk.injEq] at h; exact h.1.symm
    · split at h
      · simp only [Prod.mk.injEq] at h; exact h.1.symm
      · split at h
        · simp only [Prod.mk.injEq] at h; exact h.1.symm
        · rename_i cart hcart hlen hins
          split at h
          · simp only [Prod.mk.injEq] at h; exact h.1.symm
          · rename_i cur2 hitems
            split at h
            · simp only [Prod.mk.injEq] at h; exact h.1.symm
            · split at h
              · simp only [Prod.mk.injEq] at h; exact h.1.symm
              · exfalso
                obtain ⟨i1, i2, i3, i4, i5, i6⟩ := Create_items_ok _ _ _ _ _ _ hitems
                simp only [Prod.mk.injEq] at h
                obtain ⟨hdb, hent⟩ := h
                have hnew : db.orders.any (fun o => decide (o.ID = env.orderID)) = false := by
                  cases hb : db.orders.any (fun o => decide (o.ID = env.orderID)) with
                  | false => rfl
                  | true => exact absurd (Or.inr hb) hins
                have hd : decide (env.fault = some CreateStep.readBack) = false := by
                  simp [hrb]
                rw [hd, hdb] at hent
                have hg := GetByID_appended db
                  { ID := env.orderID, UserID := userID,
                    TotalPrice := DecimalColumn.decimal_10_2 (Create.totalPrice
                      (List.filter (fun i => decide (i.CartID = cart.ID)) db.cartItems)),
                    Status := "pending", PaymentMethod := req.PaymentMethod,
                    PaymentStatus := "pending", ShippingMethod := req.ShippingMethod,
                    ShippingStatus := "pending", ShippingAddress := req.ShippingAddress,
                    TrackingNumber := "", Notes := req.Notes } hnew _ rfl db1
                    (by rw [← hdb]; exact i5)
                rw [hg] at hent
                simp at hent

/-- The call of `Create` on a cart without items: nothing changes, and the error is the one
of the empty cart unless loading the cart fails. -/
theorem Create_of_empty [Zero F] [Add F] [Mul F] [IntCast F] [DecimalColumn F] (env : CreateEnv) (db : DB F)
    (userID : UUID) (req : CreateOrderRequest) (cart : Cart F)
    (hcart : First (fun c => c.ID) (fun c => c.UserID = userID) db.carts = some cart)
    (hempty : db.cartItems.filter (fun i => i.CartID = cart.ID) = []) :
    (env.fault ≠ some .loadCart →
        orderRepository.Create env db userID req = (db, .error EmptyCart))
    ∧ (env.fault = some .loadCart →
        orderRepository.Create env db userID req = (db, .error .storage)) := by
  constructor
  · intro hf
    simp only [orderRepository.Create, Begin, Tx.Rollback, if_neg hf, hcart, hempty]
    rfl
  · intro hf
    simp only [orderRepository.Create, Begin, Tx.Rollback, hf, if_true]

theorem filter_filter_not_self (items : List (CartItem F)) (c : UUID) :
    (items.filter (fun i => ¬ (i.CartID = c))).filter (fun i => i.CartID = c) = [] := by
  rw [List.filter_eq_nil_iff]
  intro i hi
  have := (List.mem_filter.mp hi).2
  simpa using this

theorem filter_filter_not_other (items : List (CartItem F)) (c d : UUID) (h : d ≠ c) :
    (items.filter (fun i => ¬ (i.CartID = c))).filter (fun i => i.CartID = d)
      = items.filter (fun i => i.CartID = d) := by
  rw [List.filter_filter]
  apply List.filter_congr
  intro i _
  by_cases hd : i.CartID = d
  · simp [hd, h]
  · simp [hd]

/-- A successful run of the loop of `Cancel` adds to the stock of each product
the quantities of the order items that reference it and touches nothing else. -/
theorem Cancel_items_ok (fault : Option CancelStep) (k : Nat) (items : List (OrderItem F))
    (cur cur1 : DB F) (h : Cancel.items fault k items cur = .ok cur1) :
    cur1.products = cur.products.map (fun p =>
        { p with Stock := p.Stock + quantityOf items p.ID })
    ∧ cur1.carts = cur.carts ∧ cur1.cartItems = cur.cartItems
    ∧ cur1.orders = cur.orders ∧ cur1.orderItems = cur.orderItems
    ∧ cur1.transactions = cur.transactions := by
  induction items generalizing k cur with
  | nil =>
    simp only [Cancel.items, Except.ok.injEq] at h
    subst h
    simp [quantityOf_nil]
  | cons c rest ih =>
    simp only [Cancel.items] at h
    split at h
    · exact absurd h (by simp)
    · obtain ⟨h1, h2, h3, h4, h5, h6⟩ := ih _ _ h
      refine ⟨?_, h2, h3, h4, h5, h6⟩
      rw [h1]
      simp only [updateStock, List.map_map]
      apply List.map_congr_left
      intro p _
      simp only [Function.comp, quantityOf_cons]
      by_cases hp : p.ID = c.ProductID
      · have hp2 : c.ProductID = p.ID := hp.symm
        simp only [hp, if_true]
        congr 1
        omega
      · have hp2 : ¬ c.ProductID = p.ID := fun e => hp e.symm
        simp only [hp, hp2, if_false]
        congr 1
        omega

/-- What a call of `Cancel` that returns no error has done. -/
theorem Cancel_ok (fault : Option CancelStep) (db db1 : DB F) (id : UUID)
    (h : orderRepository.Cancel fault db id = (db1, .ok ())) :
    ∃ order, First (fun o => o.ID) (fun o => o.ID = id) db.orders = some order
      ∧ order.ID = id
      ∧ order.Status = "pending"
      ∧ db1.products = db.products.map (fun p =>
          { p with Stock := p.Stock
              + quantityOf (db.orderItems.filter (fun i => i.OrderID = id)) p.ID })
      ∧ db1.orders = setStatus db.orders id "cancelled"
      ∧ db1.carts = db.carts ∧ db1.cartItems = db.cartItems
      ∧ db1.orderItems = db.orderItems ∧ db1.transactions = db.transactions := by
  simp only [orderRepository.Cancel, Begin, Tx.Rollback, Tx.Commit] at h
  split at h
  · simp at h
  · split at h
    · simp at h
    · rename_i order horder
      have hid : order.ID = id := by
        have := (First_some_mem _ _ _ _ horder).2
        simpa using this
      refine ⟨order, horder, hid, ?_⟩
      split at h
      · simp at h
      · rename_i hst
        split at h
        · simp at h
        · rename_i cur1 hitems
          split at h
          · simp at h
          · split at h
            · simp at h
            · obtain ⟨i1, i2, i3, i4, i5, i6⟩ := Cancel_items_ok _ _ _ _ _ hitems
              simp only [Prod.mk.injEq, and_true] at h
              subst h
              rw [hid] at i1
              refine ⟨?_, i1, ?_, i2, i3, i5, i6⟩
              · exact Classical.not_not.mp hst
              · simp only [i4, hid]

/-- The call of `Cancel` on an order that is not pending: nothing changes, and the error is
the one of the illegal state unless loading the order fails. -/
theorem Cancel_not_pending (fault : Option CancelStep) (db : DB F) (id : UUID) (order : Order F)
    (horder : First (fun o => o.ID) (fun o => o.ID = id) db.orders = some order)
    (hst : order.Status ≠ "pending") :
    (fault ≠ some .loadOrder →
        orderRepository.Cancel fault db id = (db, .error InvalidOrderState))
    ∧ (fault = some .loadOrder →
        orderRepository.Cancel fault db id = (db, .error .storage)) := by
  constructor
  · intro hf
    simp only [orderRepository.Cancel, Begin, Tx.Rollback, if_neg hf, horder]
    rw [if_pos hst]
    rfl
  · intro hf
    simp only [orderRepository.Cancel, Begin, Tx.Rollback, hf, if_true]

theorem GetByUserID_products [Zero F] [Add F] [Mul F] [IntCast F] (newCartID : UUID)
    (fault : Option GetCartStep) (db : DB F) (userID : UUID) :
    (cartRepository.GetByUserID newCartID fault db userID).1.products = db.products := by
  simp only [cartRepository.GetByUserID]
  split
  · rfl
  · split
    · split <;> rfl
    · rfl

theorem AddItem_products [Zero F] [Add F] [Mul F] [IntCast F] (env : AddItemEnv) (db : DB F)
    (userID : UUID) (item : AddToCartRequest) :
    (cartRepository.AddItem env db userID item).1.products = db.products := by
  have hg := GetByUserID_products env.cartID env.getCartFault db userID
  simp only [cartRepository.AddItem]
  split
  · rename_i db1 err heq
    rw [heq] at hg
    exact hg
  · rename_i db1 cart heq
    rw [heq] at hg
    simp only at hg
    split
    · exact hg
    · split
      · exact hg
      · split
        · exact hg
        · split
          · split
            · exact hg
            · split
              · exact hg
              · exact hg
          · split
            · exact hg
            · exact hg

theorem UpdateItem_products (fault : Option UpdateItemStep) (db : DB F) (cartItemID : UUID)
    (quantity : Int) :
    (cartRepository.UpdateItem fault db cartItemID quantity).1.products = db.products := by
  simp only [cartRepository.UpdateItem]
  split
  · rfl
  · split
    · rfl
    · split
      · rfl
      · split <;> rfl

/-- Every successful operation changes the stock of each product by what it
has released less what it has reserved. -/
theorem exec_products [Zero F] [Add F] [Mul F] [IntCast F] [DecimalColumn F] (op : Op) (db db1 : DB F)
    (h : op.exec db = (db1, .ok ())) :
    db1.products = db.products.map (fun p =>
      { p with Stock := p.Stock - quantityOf (op.reserved db db1) p.ID
          + quantityOf (op.released db) p.ID }) := by
  have hid : db.products = db.products.map (fun p =>
      { p with Stock := p.Stock - quantityOf ([] : List (OrderItem F)) p.ID
          + quantityOf ([] : List (OrderItem F)) p.ID }) := by
    simp [quantityOf_nil]
  cases op with
  | AddItem env userID item =>
    have := AddItem_products env db userID item
    simp only [Op.exec] at h
    rw [h] at this
    simp only [Op.reserved, Op.released]
    rw [this]
    exact hid
  | UpdateItem fault cartItemID quantity =>
    have := UpdateItem_products fault db cartItemID quantity
    simp only [Op.exec] at h
    rw [h] at this
    simp only [Op.reserved, Op.released]
    rw [this]
    exact hid
  | Create env userID req =>
    simp only [Op.exec, Prod.mk.injEq] at h
    obtain ⟨h1, h2⟩ := h
    cases hr : (orderRepository.Create env db userID req).2 with
    | error err => rw [hr] at h2; simp [outcome] at h2
    | ok entity =>
      have hc : orderRepository.Create env db userID req = (db1, .ok entity) := by
        rw [← h1, ← hr]
      obtain ⟨cart, _, _, _, _, _, hoi, hp, _⟩ := Create_ok env db db1 userID req entity hc
      simp only [Op.reserved, Op.released, quantityOf_nil]
      rw [hoi, List.drop_left, hp]
      simp
  | Cancel fault id =>
    simp only [Op.exec] at h
    obtain ⟨order, _, _, _, hp, _⟩ := Cancel_ok fault db db1 id h
    simp only [Op.reserved, Op.released, quantityOf_nil]
    rw [hp]
    simp

/-- The two cases of `Create_of_empty`, by component of the result. -/
theorem Create_of_empty_parts [Zero F] [Add F] [Mul F] [IntCast F] [DecimalColumn F] (env : CreateEnv) (db : DB F)
    (userID : UUID) (req : CreateOrderRequest) (cart : Cart F)
    (hcart : First (fun c => c.ID) (fun c => c.UserID = userID) db.carts = some cart)
    (hempty : db.cartItems.filter (fun i => i.CartID = cart.ID) = []) :
    (orderRepository.Create env db userID req).1 = db
    ∧ (env.fault ≠ some .loadCart →
        (orderRepository.Create env db userID req).2 = .error EmptyCart)
    ∧ (env.fault = some .loadCart →
        (orderRepository.Create env db userID req).2 = .error .storage) := by
  obtain ⟨h1, h2⟩ := Create_of_empty env db userID req cart hcart hempty
  by_cases hf : env.fault = some .loadCart
  · rw [h2 hf]
    exact ⟨rfl, fun hn => absurd hf hn, fun _ => rfl⟩
  · rw [h1 hf]
    exact ⟨rfl, fun _ => rfl, fun hn => absurd hn hf⟩

/-- After a successful `Create` the carts table is as before, the cart of the
user has no items and the items of the other carts are as before. -/
theorem Create_clears_cart [Zero F] [Add F] [Mul F] [IntCast F] [DecimalColumn F] (env : CreateEnv)
    (db db1 : DB F) (userID : UUID) (req : CreateOrderRequest) (entity : OrderEntity F)
    (h : orderRepository.Create env db userID req = (db1, .ok entity)) :
    ∃ cart, First (fun c => c.ID) (fun c => c.UserID = userID) db.carts = some cart
      ∧ db1.carts = db.carts
      ∧ First (fun c => c.ID) (fun c => c.UserID = userID) db1.carts = some cart
      ∧ db1.cartItems.filter (fun i => i.CartID = cart.ID) = []
      ∧ ∀ other, other ≠ cart.ID →
          db1.cartItems.filter (fun i => i.CartID = other)
            = db.cartItems.filter (fun i => i.CartID = other) := by
  obtain ⟨cart, hcart, _, _, _, _, _, _, hci, hcarts, _⟩ :=
    Create_ok env db db1 userID req entity h
  refine ⟨cart, hcart, hcarts, ?_, ?_, ?_⟩
  · rw [hcarts]; exact hcart
  · rw [hci]; exact filter_filter_not_self _ _
  · intro other hne
    rw [hci]
    exact filter_filter_not_other _ _ _ hne

/-! ## Lemmas for cancellation -/

theorem pickFirst_map {α : Type} (key : α → UUID) (f : α → α) (hk : ∀ r, key (f r) = key r)
    (b : Option α) (r : α) : pickFirst key (b.map f) (f r) = (pickFirst key b r).map f := by
  cases b with
  | none => rfl
  | some b =>
    simp only [pickFirst, Option.map_some', hk]
    split <;> rfl

theorem foldl_pickFirst_map {α : Type} (key : α → UUID) (f : α → α)
    (hk : ∀ r, key (f r) = key r) (rows : List α) (b : Option α) :
    (rows.map f).foldl (pickFirst key) (b.map f) = (rows.foldl (pickFirst key) b).map f := by
  induction rows generalizing b with
  | nil => rfl
  | cons r rest ih =>
    simp only [List.map_cons, List.foldl_cons]
    rw [pickFirst_map key f hk, ih]

/-- An update that keeps the key and the condition of every row commutes with `First`. -/
theorem First_map {α : Type} (key : α → UUID) (cond : α → Bool) (f : α → α)
    (hk : ∀ r, key (f r) = key r) (hc : ∀ r, cond (f r) = cond r) (rows : List α) :
    First key cond (rows.map f) = (First key cond rows).map f := by
  unfold First
  rw [List.filter_map]
  have : (cond ∘ f) = cond := funext hc
  rw [this]
  exact foldl_pickFirst_map key f hk _ none

theorem First_setStatus (orders : List (Order F)) (id : UUID) (value : String) :
    First (fun o => o.ID) (fun o => o.ID = id) (setStatus orders id value)
      = (First (fun o => o.ID) (fun o => o.ID = id) orders).map
          (fun o => { o with Status := value }) := by
  unfold setStatus
  rw [First_map (fun o : Order F => o.ID) (fun o : Order F => decide (o.ID = id))
    (fun o : Order F => if o.ID = id then { o with Status := value } else o)]
  · cases h : First (fun o => o.ID) (fun o => decide (o.ID = id)) orders with
    | none => rfl
    | some o =>
      have := (First_some_mem _ _ _ _ h).2
      simp only [decide_eq_true_eq] at this
      simp [this]
  · intro r; split <;> rfl
  · intro r; split <;> rfl

/-- The loop of `Cancel` succeeds when no statement fails. -/
theorem Cancel_items_none (k : Nat) (items : List (OrderItem F)) (cur : DB F) :
    ∃ cur1, Cancel.items none k items cur = .ok cur1 := by
  induction items generalizing k cur with
  | nil => exact ⟨cur, rfl⟩
  | cons c rest ih =>
    simp only [Cancel.items]
    rw [if_neg (by simp)]
    exact ih _ _

/-- The call of `Cancel` on a pending order succeeds when no statement fails. -/
theorem Cancel_none_ok (db : DB F) (id : UUID) (order : Order F)
    (horder : First (fun o => o.ID) (fun o => o.ID = id) db.orders = some order)
    (hst : order.Status = "pending") :
    ∃ db1, orderRepository.Cancel none db id = (db1, .ok ()) := by
  obtain ⟨cur1, hcur⟩ := Cancel_items_none 0
    (db.orderItems.filter (fun i => decide (i.OrderID = order.ID))) db
  simp only [orderRepository.Cancel, Begin, Tx.Rollback, Tx.Commit, horder]
  rw [if_neg (by simp), if_neg (by simp [hst]), hcur]
  simp

/-- After a successful `Cancel` the order is found with the status "cancelled". -/
theorem Cancel_ok_order (fault : Option CancelStep) (db db1 : DB F) (id : UUID)
    (h : orderRepository.Cancel fault db id = (db1, .ok ())) :
    ∃ order, First (fun o => o.ID) (fun o => o.ID = id) db.orders = some order
      ∧ order.Status = "pending"
      ∧ First (fun o => o.ID) (fun o => o.ID = id) db1.orders
          = some { order with Status := "cancelled" } := by
  obtain ⟨order, horder, _, hst, _, hord, _⟩ := Cancel_ok fault db db1 id h
  refine ⟨order, horder, hst, ?_⟩
  rw [hord, First_setStatus, horder]
  rfl

/-- The product rows after subtracting and adding the same quantities. -/
theorem products_add_sub (products : List (Product F)) (q : UUID → Int) :
    (products.map (fun p => { p with Stock := p.Stock - q p.ID })).map
        (fun p => { p with Stock := p.Stock + q p.ID }) = products := by
  rw [List.map_map]
  conv => rhs; rw [← List.map_id products]
  apply List.map_congr_left
  intro p _
  simp only [Function.comp, id]
  cases p
  simp

/-- After a successful `Create` on a database where every order item belongs to
an order, the new order is found by its id and its items are the new rows. -/
theorem Create_ok_order [Zero F] [Add F] [Mul F] [IntCast F] [DecimalColumn F] (env : CreateEnv) (db db1 : DB F)
    (userID : UUID) (req : CreateOrderRequest) (entity : OrderEntity F)
    (h : orderRepository.Create env db userID req = (db1, .ok entity))
    (hfk : orderItemsHaveOrder db) :
    ∃ cart, First (fun c => c.ID) (fun c => c.UserID = userID) db.carts = some cart
      ∧ entity.order.ID = env.orderID
      ∧ entity.order.Status = "pending"
      ∧ First (fun o => o.ID) (fun o => o.ID = env.orderID) db1.orders = some entity.order
      ∧ db1.orderItems.filter (fun i => i.OrderID = env.orderID)
          = Create.newItems env env.orderID 0 (db.cartItems.filter (fun i => i.CartID = cart.ID))
      ∧ db1.products = db.products.map (fun p =>
          { p with Stock := p.Stock - quantityOf (Create.newItems env env.orderID 0
              (db.cartItems.filter (fun i => i.CartID = cart.ID))) p.ID }) := by
  obtain ⟨cart, hcart, _, hord, hnew, horders, hitems, hprod, _, _, _, _⟩ :=
    Create_ok env db db1 userID req entity h
  have hid : entity.order.ID = env.orderID := by rw [hord]
  have hstat : entity.order.Status = "pending" := by rw [hord]
  refine ⟨cart, hcart, hid, hstat, ?_, ?_, hprod⟩
  · apply First_of_filter_singleton
    rw [horders, List.filter_append]
    have : db.orders.filter (fun o => decide (o.ID = env.orderID)) = [] := by
      rw [List.filter_eq_nil_iff]
      intro o ho
      rw [List.any_eq_false] at hnew
      exact hnew o ho
    rw [this]
    simp [hid]
  · rw [hitems, List.filter_append]
    have h1 : db.orderItems.filter (fun i => decide (i.OrderID = env.orderID)) = [] := by
      rw [List.filter_eq_nil_iff]
      intro i hi
      obtain ⟨o, ho, hoi⟩ := hfk i hi
      rw [List.any_eq_false] at hnew
      have := hnew o ho
      simp only [decide_eq_true_eq] at this ⊢
      intro e
      exact this (by rw [hoi, e])
    have h2 : (Create.newItems env env.orderID 0
        (db.cartItems.filter (fun i => decide (i.CartID = cart.ID)))).filter
          (fun i => decide (i.OrderID = env.orderID))
        = Create.newItems env env.orderID 0
            (db.cartItems.filter (fun i => decide (i.CartID = cart.ID))) := by
      rw [List.filter_eq_self]
      intro i hi
      simpa using Create_newItems_orderID _ _ _ _ i hi
    rw [h1, h2, List.nil_append]

theorem quantityOf_eq_zero (items : List (OrderItem F)) (productID : UUID)
    (h : ∀ i ∈ items, i.ProductID ≠ productID) : quantityOf items productID = 0 := by
  unfold quantityOf
  have : items.filter (fun i => decide (i.ProductID = productID)) = [] := by
    rw [List.filter_eq_nil_iff]
    intro i hi
    simpa using h i hi
  rw [this]
  rfl

/-! ## Lemmas on the cart operations -/

/-- The call of `GetByUserID` for a user who has a cart returns that cart and
writes nothing. -/
theorem GetByUserID_found [Zero F] [Add F] [Mul F] [IntCast F] (newCartID : UUID)
    (fault : Option GetCartStep) (db : DB F) (userID : UUID) (cart : Cart F)
    (hcart : First (fun c => c.ID) (fun c => c.UserID = userID) db.carts = some cart)
    (hf : fault ≠ some .loadCart) :
    cartRepository.GetByUserID newCartID fault db userID
      = (db, .ok (cartRepository.modelToEntity cart
          (db.cartItems.filter (fun i => i.CartID = cart.ID)))) := by
  simp only [cartRepository.GetByUserID, if_neg hf, hcart]

/-- What `AddItem` does for a user who has a cart, when its own statements up
to the lookup of the cart item do not fail. -/
theorem AddItem_found [Zero F] [Add F] [Mul F] [IntCast F] (env : AddItemEnv) (db : DB F)
    (userID : UUID) (item : AddToCartRequest) (cart : Cart F) (product : Product F)
    (hcart : First (fun c => c.ID) (fun c => c.UserID = userID) db.carts = some cart)
    (hprod : First (fun p => p.ID) (fun p => p.ID = item.ProductID) db.products = some product)
    (hf1 : env.fault ≠ some (.getCart .loadCart)) (hf2 : env.fault ≠ some .loadProduct) :
    cartRepository.AddItem env db userID item =
      if product.Stock < item.Quantity then (db, .error .ErrInvalidData)
      else
        match (if env.fault = some .findItem then none
            else First (fun i => i.ID)
              (fun i => i.CartID = cart.ID ∧ i.ProductID = item.ProductID) db.cartItems) with
        | some existingItem =>
          if product.Stock < existingItem.Quantity + item.Quantity then
            (db, .error .ErrInvalidData)
          else if env.fault = some .updateItem then (db, .error .storage)
          else
            ({ db with cartItems := db.cartItems.map (fun i =>
                if i.ID = existingItem.ID then
                  { i with Quantity := existingItem.Quantity + item.Quantity,
                           Price := product.Price }
                else i) }, .ok ())
        | none =>
          if env.fault = some .insertItem ∨ db.cartItems.any (fun i => i.ID = env.itemID) then
            (db, .error .storage)
          else
            ({ db with cartItems := db.cartItems ++
                [{ ID := env.itemID, CartID := cart.ID, ProductID := item.ProductID,
                   Quantity := item.Quantity, Price := product.Price }] }, .ok ()) := by
  have hg : env.getCartFault ≠ some .loadCart := by
    unfold AddItemEnv.getCartFault
    split
    · rename_i step h
      intro e
      simp only [Option.some.injEq] at e
      subst e
      exact hf1 h
    · simp
  simp only [cartRepository.AddItem, GetByUserID_found env.cartID env.getCartFault db userID
    cart hcart hg, if_neg hf2, hprod, cartRepository.modelToEntity]

theorem First_setQuantity (cartItems : List (CartItem F)) (id : UUID) (quantity : Int)
    (target : UUID) :
    First (fun i => i.ID) (fun i => i.ID = id)
        (cartItems.map (fun i => if i.ID = target then { i with Quantity := quantity } else i))
      = (First (fun i => i.ID) (fun i => i.ID = id) cartItems).map
          (fun i => if i.ID = target then { i with Quantity := quantity } else i) := by
  apply First_map (fun i : CartItem F => i.ID) (fun i : CartItem F => decide (i.ID = id))
  · intro r; split <;> rfl
  · intro r; split <;> rfl

theorem GetByUserID_cartItems [Zero F] [Add F] [Mul F] [IntCast F] (newCartID : UUID)
    (fault : Option GetCartStep) (db : DB F) (userID : UUID) :
    (cartRepository.GetByUserID newCartID fault db userID).1.cartItems = db.cartItems := by
  simp only [cartRepository.GetByUserID]
  split
  · rfl
  · split
    · split <;> rfl
    · rfl

theorem oneItemPerProduct_of_eq (db db1 : DB F) (h : db1.cartItems = db.cartItems)
    (hinv : oneItemPerProduct db) : oneItemPerProduct db1 := by
  unfold oneItemPerProduct at *
  rw [h]
  exact hinv

theorem oneItemPerProduct_of_sublist (db db1 : DB F) (h : db1.cartItems.Sublist db.cartItems)
    (hinv : oneItemPerProduct db) : oneItemPerProduct db1 := by
  unfold oneItemPerProduct at *
  exact List.Pairwise.sublist h hinv

/-- An update of rows that keeps the cart and the product of every row keeps
the invariant. -/
theorem oneItemPerProduct_of_map (db db1 : DB F) (f : CartItem F → CartItem F)
    (hf : ∀ i, (f i).CartID = i.CartID ∧ (f i).ProductID = i.ProductID)
    (h : db1.cartItems = db.cartItems.map f)
    (hinv : oneItemPerProduct db) : oneItemPerProduct db1 := by
  unfold oneItemPerProduct at *
  rw [h, List.pairwise_map]
  apply List.Pairwise.imp _ hinv
  intro a b hab
  rw [(hf a).1, (hf a).2, (hf b).1, (hf b).2]
  exact hab

/-- Appending a row whose cart and product no row has keeps the invariant. -/
theorem oneItemPerProduct_of_append (db db1 : DB F) (new : CartItem F)
    (hnew : db.cartItems.filter
      (fun i => i.CartID = new.CartID ∧ i.ProductID = new.ProductID) = [])
    (h : db1.cartItems = db.cartItems ++ [new])
    (hinv : oneItemPerProduct db) : oneItemPerProduct db1 := by
  unfold oneItemPerProduct at *
  rw [h, List.pairwise_append]
  refine ⟨hinv, by simp, ?_⟩
  intro a ha b hb
  simp only [List.mem_singleton] at hb
  subst hb
  rw [List.filter_eq_nil_iff] at hnew
  simpa using hnew a ha

theorem AddItem_oneItemPerProduct [Zero F] [Add F] [Mul F] [IntCast F] (env : AddItemEnv)
    (db : DB F) (userID : UUID) (item : AddToCartRequest)
    (hf : env.fault ≠ some .findItem) (hinv : oneItemPerProduct db) :
    oneItemPerProduct (cartRepository.AddItem env db userID item).1 := by
  have hg := GetByUserID_cartItems env.cartID env.getCartFault db userID
  have hstart : ∀ db1 : DB F, db1.cartItems = db.cartItems → oneItemPerProduct db1 :=
    fun db1 h => oneItemPerProduct_of_eq db db1 h hinv
  simp only [cartRepository.AddItem]
  split
  · rename_i db1 err heq
    rw [heq] at hg
    exact hstart _ hg
  · rename_i db1 cart heq
    rw [heq] at hg
    simp only at hg
    split
    · exact hstart _ hg
    · split
      · exact hstart _ hg
      · split
        · exact hstart _ hg
        · split
          · split
            · exact hstart _ hg
            · split
              · exact hstart _ hg
              · rename_i existingItem hfound _ _
                apply oneItemPerProduct_of_map db1 _ _ _ rfl (hstart _ hg)
                intro i
                split <;> exact ⟨rfl, rfl⟩
          · rename_i hnone
            split
            · exact hstart _ hg
            · apply oneItemPerProduct_of_append db1 _ _ _ rfl (hstart _ hg)
              exact (First_eq_none_iff _ _ _).mp hnone

theorem UpdateItem_oneItemPerProduct (fault : Option UpdateItemStep) (db : DB F)
    (cartItemID : UUID) (quantity : Int) (hinv : oneItemPerProduct db) :
    oneItemPerProduct (cartRepository.UpdateItem fault db cartItemID quantity).1 := by
  simp only [cartRepository.UpdateItem]
  split
  · exact hinv
  · split
    · exact hinv
    · split
      · exact hinv
      · split
        · exact hinv
        · apply oneItemPerProduct_of_map db _ _ _ rfl hinv
          intro i
          split <;> exact ⟨rfl, rfl⟩

theorem RemoveItem_oneItemPerProduct (fault : Bool) (db : DB F) (cartItemID : UUID)
    (hinv : oneItemPerProduct db) :
    oneItemPerProduct (cartRepository.RemoveItem fault db cartItemID).1 := by
  simp only [cartRepository.RemoveItem]
  split
  · exact hinv
  · exact oneItemPerProduct_of_sublist db _ (List.filter_sublist _) hinv

theorem ClearCart_oneItemPerProduct (fault : Option ClearCartStep) (db : DB F) (userID : UUID)
    (hinv : oneItemPerProduct db) :
    oneItemPerProduct (cartRepository.ClearCart fault db userID).1 := by
  simp only [cartRepository.ClearCart]
  split
  · exact hinv
  · split
    · exact hinv
    · split
      · exact hinv
      · exact oneItemPerProduct_of_sublist db _ (List.filter_sublist _) hinv

/-- The cart items after `Create`, whatever its result, are cart items from before. -/
theorem Create_cartItems_sublist [Zero F] [Add F] [Mul F] [IntCast F] [DecimalColumn F] (env : CreateEnv)
    (db : DB F) (userID : UUID) (req : CreateOrderRequest) :
    (orderRepository.Create env db userID req).1.cartItems.Sublist db.cartItems := by
  simp only [orderRepository.Create, Begin, Tx.Rollback, Tx.Commit]
  split
  · exact List.Sublist.refl _
  · split
    · exact List.Sublist.refl _
    · split
      · exact List.Sublist.refl _
      · split
        · exact List.Sublist.refl _
        · split
          · exact List.Sublist.refl _
          · rename_i cur2 hitems
            obtain ⟨_, _, _, i4, _, _⟩ := Create_items_ok _ _ _ _ _ _ hitems
            split
            · exact List.Sublist.refl _
            · split
              · exact List.Sublist.refl _
              · simp only [i4]
                exact List.filter_sublist _

theorem CartOp_oneItemPerProduct [Zero F] [Add F] [Mul F] [IntCast F] [DecimalColumn F] (op : CartOp) (db : DB F)
    (hop : op.lookupAnswered = true) (hinv : oneItemPerProduct db) :
    oneItemPerProduct (op.exec db) := by
  cases op with
  | AddItem env userID item =>
    have hf : env.fault ≠ some .findItem := by
      simpa [CartOp.lookupAnswered] using hop
    exact AddItem_oneItemPerProduct env db userID item hf hinv
  | UpdateItem fault cartItemID quantity =>
    exact UpdateItem_oneItemPerProduct fault db cartItemID quantity hinv
  | RemoveItem fault cartItemID => exact RemoveItem_oneItemPerProduct fault db cartItemID hinv
  | ClearCart fault userID => exact ClearCart_oneItemPerProduct fault db userID hinv
  | Create env userID req =>
    exact oneItemPerProduct_of_sublist db _ (Create_cartItems_sublist env db userID req) hinv

/-- The call of `UpdateItem` with a quantity that is not above the stock, when no
statement fails: the quantity of the item is set, whatever its sign. -/
theorem UpdateItem_within_stock (db : DB F) (cartItemID : UUID) (quantity : Int)
    (cartItem : CartItem F) (product : Product F)
    (hitem : First (fun i => i.ID) (fun i => i.ID = cartItemID) db.cartItems = some cartItem)
    (hprod : First (fun p => p.ID) (fun p => p.ID = cartItem.ProductID) db.products
        = some product)
    (hle : quantity ≤ product.Stock) :
    cartRepository.UpdateItem none db cartItemID quantity
      = ({ db with cartItems := db.cartItems.map (fun i =>
            if i.ID = cartItemID then { i with Quantity := quantity } else i) }, .ok ())
    ∧ First (fun i => i.ID) (fun i => i.ID = cartItemID)
        (cartRepository.UpdateItem none db cartItemID quantity).1.cartItems
        = some { cartItem with Quantity := quantity } := by
  have hid : cartItem.ID = cartItemID := by
    have := (First_some_mem _ _ _ _ hitem).2
    simpa using this
  have hstock : preloadedStock db.products cartItem.ProductID = product.Stock := by
    simp only [preloadedStock, hprod]
  have hr : cartRepository.UpdateItem none db cartItemID quantity
      = ({ db with cartItems := db.cartItems.map (fun i =>
            if i.ID = cartItemID then { i with Quantity := quantity } else i) }, .ok ()) := by
    simp only [cartRepository.UpdateItem, hitem, hstock, hid]
    rw [if_neg (by simp), if_neg (by omega), if_neg (by simp)]
  rw [hr]
  refine ⟨rfl, ?_⟩
  simp only
  rw [First_setQuantity, hitem]
  simp [hid]

theorem First_setTransactionStatus (transactions : List (Transaction F)) (id : UUID)
    (value : String) :
    First (fun t => t.ID) (fun t => t.ID = id) (setTransactionStatus transactions id value)
      = (First (fun t => t.ID) (fun t => t.ID = id) transactions).map
          (fun t => { t with Status := value }) := by
  unfold setTransactionStatus
  rw [First_map (fun t : Transaction F => t.ID) (fun t : Transaction F => decide (t.ID = id))
    (fun t : Transaction F => if t.ID = id then { t with Status := value } else t)]
  · cases h : First (fun t => t.ID) (fun t => decide (t.ID = id)) transactions with
    | none => rfl
    | some t =>
      have := (First_some_mem _ _ _ _ h).2
      simp only [decide_eq_true_eq] at this
      simp [this]
  · intro r; split <;> rfl
  · intro r; split <;> rfl

/-- What `UpdateStatus` does for a transaction that is found when no statement fails. -/
theorem UpdateStatus_none (db : DB F) (id : UUID) (status : String) (t : Transaction F)
    (ht : First (fun t => t.ID) (fun t => t.ID = id) db.transactions = some t) :
    transactionRepository.UpdateStatus none db id status
      = ({ db with
            transactions := setTransactionStatus db.transactions id status
            orders := setPaymentStatus db.orders t.OrderID
              (UpdateStatus.paymentStatus status) }, .ok ()) := by
  simp only [transactionRepository.UpdateStatus, Begin, Tx.Commit, First_setTransactionStatus,
    ht, Option.map_some']
  rw [if_neg (by simp), if_neg (by simp), if_neg (by simp), if_neg (by simp)]

/-- When the cart of the user holds a line item for product P, of quantity q,
and q + n exceeds the stock of P, `AddItem` of n units of P returns an error and
leaves the database as it is, whether n alone is within the stock or not,
unless the lookup of the line item itself fails: the error is
`gorm.ErrInvalidData` when no statement fails.  In every case the rows of the
cart items table stay as they are. -/
theorem AddItem_over_stock [Zero F] [Add F] [Mul F] [IntCast F] (env : AddItemEnv)
    (db : DB F) (userID : UUID) (item : AddToCartRequest) (cart : Cart F) (product : Product F)
    (existing : CartItem F)
    (hcart : First (fun c => c.ID) (fun c => c.UserID = userID) db.carts = some cart)
    (hprod : First (fun p => p.ID) (fun p => p.ID = item.ProductID) db.products = some product)
    (hline : First (fun i => i.ID)
        (fun i => i.CartID = cart.ID ∧ i.ProductID = item.ProductID) db.cartItems
          = some existing)
    (hstock : product.Stock < existing.Quantity + item.Quantity) :
    (env.fault ≠ some .findItem →
        (cartRepository.AddItem env db userID item).1 = db
        ∧ ∃ err, (cartRepository.AddItem env db userID item).2 = .error err)
    ∧ (env.fault = none →
        cartRepository.AddItem env db userID item = (db, .error InsufficientStock))
    ∧ ∃ extra, (cartRepository.AddItem env db userID item).1.cartItems
        = db.cartItems ++ extra := by
  by_cases hf1 : env.fault = some (.getCart .loadCart)
  · have hr : cartRepository.AddItem env db userID item = (db, .error .storage) := by
      simp [cartRepository.AddItem, cartRepository.GetByUserID, AddItemEnv.getCartFault, hf1]
    rw [hr]
    exact ⟨fun _ => ⟨rfl, _, rfl⟩, fun h => by simp [h] at hf1, [], by simp⟩
  by_cases hf2 : env.fault = some .loadProduct
  · have hg : env.getCartFault ≠ some .loadCart := by
      simp [AddItemEnv.getCartFault, hf2]
    have hr : cartRepository.AddItem env db userID item = (db, .error .storage) := by
      simp only [cartRepository.AddItem, GetByUserID_found env.cartID env.getCartFault db userID
        cart hcart hg, hf2, if_true]
    rw [hr]
    exact ⟨fun _ => ⟨rfl, _, rfl⟩, fun h => by simp [h] at hf2, [], by simp⟩
  rw [AddItem_found env db userID item cart product hcart hprod hf1 hf2]
  by_cases hn : product.Stock < item.Quantity
  · rw [if_pos hn]
    exact ⟨fun _ => ⟨rfl, _, rfl⟩, fun _ => rfl, [], by simp⟩
  rw [if_neg hn]
  by_cases hf3 : env.fault = some .findItem
  · rw [if_pos hf3]
    refine ⟨fun h => absurd hf3 h, fun h => by simp [h] at hf3, ?_⟩
    simp only
    split
    · exact ⟨[], by simp⟩
    · exact ⟨_, rfl⟩
  · rw [if_neg hf3, hline]
    simp only
    rw [if_pos hstock]
    exact ⟨fun _ => ⟨rfl, _, rfl⟩, fun _ => rfl, [], by simp⟩

/-- The predicate "no two cart items of the same cart and product" is preserved
along every run of `AddItem`, `UpdateItem`, `RemoveItem`, `ClearCart` and
`Create`, whether the calls succeed or fail, as long as the lookup of the line
item in `AddItem` gets an answer from the database. -/
theorem runCart_oneItemPerProduct [Zero F] [Add F] [Mul F] [IntCast F] [DecimalColumn F]
    (db : DB F)
    (ops : List CartOp) (hops : ∀ op ∈ ops, op.lookupAnswered = true)
    (hinv : oneItemPerProduct db) : oneItemPerProduct (runCart db ops) := by
  induction ops generalizing db with
  | nil => exact hinv
  | cons op rest ih =>
    simp only [runCart]
    apply ih
    · intro op1 h1
      exact hops op1 (List.mem_cons_of_mem _ h1)
    · exact CartOp_oneItemPerProduct op db (hops op (List.mem_cons_self _ _)) hinv

/-! ## Lemmas on payments -/

theorem First_setPaymentStatus (orders : List (Order F)) (id : UUID) (value : String) :
    First (fun o => o.ID) (fun o => o.ID = id) (setPaymentStatus orders id value)
      = (First (fun o => o.ID) (fun o => o.ID = id) orders).map
          (fun o => { o with PaymentStatus := value }) := by
  unfold setPaymentStatus
  rw [First_map (fun o : Order F => o.ID) (fun o : Order F => decide (o.ID = id))
    (fun o : Order F => if o.ID = id then { o with PaymentStatus := value } else o)]
  · cases h : First (fun o => o.ID) (fun o => decide (o.ID = id)) orders with
    | none => rfl
    | some o =>
      have := (First_some_mem _ _ _ _ h).2
      simp only [decide_eq_true_eq] at this
      simp [this]
  · intro r; split <;> rfl
  · intro r; split <;> rfl

/-- After `UpdateStatus` without failing statement the transaction is found
with the new status and its order with the payment status of the `switch`. -/
theorem UpdateStatus_none_found (db : DB F) (id : UUID) (status : String) (t : Transaction F)
    (ht : First (fun t => t.ID) (fun t => t.ID = id) db.transactions = some t) :
    ∃ db1, transactionRepository.UpdateStatus none db id status = (db1, .ok ())
      ∧ First (fun t => t.ID) (fun t => t.ID = id) db1.transactions
          = some { t with Status := status }
      ∧ db1.orders = setPaymentStatus db.orders t.OrderID (UpdateStatus.paymentStatus status)
      ∧ (∀ o, First (fun o => o.ID) (fun o => o.ID = t.OrderID) db.orders = some o →
          First (fun o => o.ID) (fun o => o.ID = t.OrderID) db1.orders
            = some { o with PaymentStatus := UpdateStatus.paymentStatus status }) := by
  refine ⟨_, UpdateStatus_none db id status t ht, ?_, rfl, ?_⟩
  · simp only
    rw [First_setTransactionStatus, ht]
    rfl
  · intro o ho
    simp only
    rw [First_setPaymentStatus, ho]
    rfl

/-- The call of `VerifyPayment` on a transaction that is found, when no statement
fails, is `UpdateStatus` with the status the comparison picks. -/
theorem VerifyPayment_none (db : DB F) (id : UUID) (req : VerifyPaymentRequest)
    (t : Transaction F)
    (ht : First (fun t => t.ID) (fun t => t.ID = id) db.transactions = some t) :
    paymentService.VerifyPayment false none db id req
      = transactionRepository.UpdateStatus none db id
          (if t.TransactionID = req.TransactionID then "completed" else "failed") := by
  have hg : transactionRepository.GetByID false db id = .ok t := by
    simp only [transactionRepository.GetByID, ht]
    rfl
  simp only [paymentService.VerifyPayment, hg]
  split <;> rfl

/-! ## Lemmas on the request layer and on product updates -/

theorem CreateOrder_status [Zero F] [Add F] [Mul F] [IntCast F] [DecimalColumn F] (env : CreateEnv) (db : DB F)
    (userID : UUID) (req : CreateOrderRequest) (hv : req.ValidateStruct = true) :
    (OrderHandler.CreateOrder env db userID (some req)).2
      = match (orderService.CreateOrder env db userID req).2 with
        | .error _ => StatusInternalServerError
        | .ok _ => StatusCreated := by
  simp only [OrderHandler.CreateOrder, hv]
  rw [if_neg (by simp)]
  split <;> rename_i heq <;> rw [heq]

theorem AddToCart_status [Zero F] [Add F] [Mul F] [IntCast F] (env : AddItemEnv) (db : DB F)
    (userID : UUID) (req : AddToCartRequest) (hv : req.ValidateStruct = true) :
    (CartHandler.AddToCart env db userID (some req)).2
      = match (cartService.AddToCart env db userID req).2 with
        | .error _ => StatusInternalServerError
        | .ok _ => StatusOK := by
  simp only [CartHandler.AddToCart, hv]
  rw [if_neg (by simp)]
  split <;> rename_i heq <;> rw [heq]

theorem CancelOrder_status (fault : Option CancelStep) (db : DB F) (id : UUID) :
    (OrderHandler.CancelOrder fault db (some id)).2
      = match (orderService.CancelOrder fault db id).2 with
        | .error _ => StatusInternalServerError
        | .ok _ => StatusOK := by
  simp only [OrderHandler.CancelOrder]
  split <;> rename_i heq <;> rw [heq]

theorem First_updates [Zero F] [LT F] [DecidableRel (fun a b : F => a < b)]
    [DecimalColumn F]
    (products : List (Product F)) (id : UUID) (req : UpdateProductRequest F) :
    First (fun p => p.ID) (fun p => p.ID = id)
        (products.map (fun p => if p.ID = id then Update.updates req p else p))
      = (First (fun p => p.ID) (fun p => p.ID = id) products).map (Update.updates req) := by
  rw [First_map (fun p : Product F => p.ID) (fun p : Product F => decide (p.ID = id))
    (fun p : Product F => if p.ID = id then Update.updates req p else p)]
  · cases h : First (fun p => p.ID) (fun p => decide (p.ID = id)) products with
    | none => rfl
    | some p =>
      have := (First_some_mem _ _ _ _ h).2
      simp only [decide_eq_true_eq] at this
      simp [this]
  · intro r; split <;> rfl
  · intro r; split <;> rfl

/-! ## The claims -/

/-- C1, the code at the failing input: product 1 has one unit in stock and the
cart of user 100 holds two units of it.  `Create` does not fail: it returns the
order, and the stock of product 1 is -1 afterwards. -/
theorem C1_create_exceeds_stock :
    preloadedStock exDB.products 1 = 1
    ∧ exDB.cartItems.map (fun i => (i.ProductID, i.Quantity)) = [(1, 2)]
    ∧ orderRepository.Create exEnv exDB 100 exReq
        = (exOrdered "pending",
            .ok { order := exOrder "pending", OrderItems := [exOrderItem], Transactions := [] })
    ∧ (exOrdered "pending").products.map (fun p => p.Stock) = [-1] :=
  ⟨by decide, by decide, by rfl, by decide⟩

/-- C2, the code at the failing sequence: no stock is negative at the start;
two users put the last unit of product 1 into their carts and then both order.
All four calls succeed; the stock of product 1 is 0 after the first order and
-1 after the second. -/
theorem C2_stock_negative_after_run :
    (∀ p ∈ exEmpty.products, 0 ≤ p.Stock)
    ∧ (runLedger exEmpty exOversell).isSome = true
    ∧ (run exEmpty (exOversell.take 3)).products.map (fun p => p.Stock) = [0]
    ∧ (run exEmpty exOversell).products.map (fun p => p.Stock) = [-1] :=
  ⟨by decide, by decide, by decide, by decide⟩

/-- C3: when the cart of the user has N items and the insertion of the order
item or the update of the stock fails for the item at position k < N, `Create`
returns the error and the database is the one before the call: no order row, no
order item, every stock as before, the cart with all its items. -/
theorem C3_create_atomic [Zero F] [Add F] [Mul F] [IntCast F] [DecimalColumn F] (env : CreateEnv) (db : DB F)
    (userID : UUID) (req : CreateOrderRequest) (cart : Cart F) (k : Nat)
    (hcart : First (fun c => c.ID) (fun c => c.UserID = userID) db.carts = some cart)
    (hk : k < (db.cartItems.filter (fun i => i.CartID = cart.ID)).length)
    (hf : env.fault = some (.insertItem k) ∨ env.fault = some (.updateStock k)) :
    orderRepository.Create env db userID req = (db, .error .storage) := by
  have hf1 : env.fault ≠ some .loadCart := by
    rcases hf with hf | hf <;> simp [hf]
  have hlen : ¬ (db.cartItems.filter (fun i => decide (i.CartID = cart.ID))).length = 0 := by
    omega
  simp only [orderRepository.Create, Begin, Tx.Rollback, if_neg hf1, hcart, if_neg hlen]
  split
  · rfl
  · rw [Create_items_fault env env.orderID 0 k _ _ hf (Nat.zero_le k) (by omega)]

/-- C3 at an example: the cart holds two items and the stock update of the
second fails; the stock of the first product is as before. -/
theorem C3_create_atomic_witness :
    First (fun c => c.ID) (fun c => c.UserID = 100) exTwo.carts
        = some { ID := 10, UserID := 100, TotalPrice := 0 }
    ∧ 1 < (exTwo.cartItems.filter (fun i => i.CartID = 10)).length
    ∧ orderRepository.Create { exEnv with fault := some (.updateStock 1) } exTwo 100 exReq
        = (exTwo, .error .storage) :=
  ⟨by decide, by decide,
    C3_create_atomic { exEnv with fault := some (.updateStock 1) } exTwo 100 exReq
      { ID := 10, UserID := 100, TotalPrice := 0 } 1 (by decide) (by decide) (Or.inr rfl)⟩

/-- C4: along every run of operations that all succeed, the stock of each
product at the end is its stock at the start, less the quantities of the
product in the order items the calls of `Create` have inserted, plus the
quantities of the product in the order items of the orders the calls of
`Cancel` have cancelled. -/
theorem C4_stock_conservation [Zero F] [Add F] [Mul F] [IntCast F] [DecimalColumn F] (db : DB F) (ops : List Op)
    (l : Ledger F) (h : runLedger db ops = some l) :
    l.db.products = db.products.map (fun p =>
      { p with Stock := p.Stock - quantityOf l.reserved p.ID + quantityOf l.released p.ID }) := by
  induction ops generalizing db l with
  | nil =>
    simp only [runLedger, Option.some.injEq] at h
    subst h
    simp [quantityOf_nil]
  | cons op rest ih =>
    simp only [runLedger] at h
    split at h
    · exact absurd h (by simp)
    · rename_i db1 u hexec
      split at h
      · exact absurd h (by simp)
      · rename_i l1 hrest
        simp only [Option.some.injEq] at h
        subst h
        have h1 := exec_products op db db1 (by rw [hexec])
        have h2 := ih db1 l1 hrest
        simp only
        rw [h2, h1, List.map_map]
        apply List.map_congr_left
        intro p _
        simp only [Function.comp, quantityOf_append]
        congr 1
        omega

/-- C4 at an example: user 100 orders two units of product 1 and cancels the
order; the stock is 1 - 2 + 2. -/
theorem C4_stock_conservation_witness :
    runLedger exDB exCreateCancel
        = some ⟨{ exOrdered "cancelled" with products := [exProduct] },
            [exOrderItem], [exOrderItem]⟩
    ∧ ({ exOrdered "cancelled" with products := [exProduct] } : DB Int).products
        = exDB.products.map (fun p =>
            { p with Stock := p.Stock - quantityOf [exOrderItem] p.ID
                + quantityOf [exOrderItem] p.ID }) :=
  ⟨by decide,
    C4_stock_conservation exDB exCreateCancel
      ⟨{ exOrdered "cancelled" with products := [exProduct] }, [exOrderItem], [exOrderItem]⟩
      (by decide)⟩

/-- C5: when the cart of the user exists and has no items, `Create` fails with
the error of the empty cart (with a storage error when loading the cart fails)
and the database is the one before the call: no order, no order item, every
stock and the cart as before. -/
theorem C5_create_empty_cart [Zero F] [Add F] [Mul F] [IntCast F] [DecimalColumn F] (env : CreateEnv) (db : DB F)
    (userID : UUID) (req : CreateOrderRequest) (cart : Cart F)
    (hcart : First (fun c => c.ID) (fun c => c.UserID = userID) db.carts = some cart)
    (hempty : db.cartItems.filter (fun i => i.CartID = cart.ID) = []) :
    (orderRepository.Create env db userID req).1 = db
    ∧ (env.fault ≠ some .loadCart →
        (orderRepository.Create env db userID req).2 = .error EmptyCart)
    ∧ (env.fault = some .loadCart →
        (orderRepository.Create env db userID req).2 = .error .storage) :=
  Create_of_empty_parts env db userID req cart hcart hempty

/-- C5 at an example: user 101 has an empty cart in `exDB`. -/
theorem C5_create_empty_cart_witness :
    (orderRepository.Create exEnv exDB 101 exReq).1 = exDB
    ∧ (exEnv.fault ≠ some .loadCart →
        (orderRepository.Create exEnv exDB 101 exReq).2 = .error EmptyCart)
    ∧ (exEnv.fault = some .loadCart →
        (orderRepository.Create exEnv exDB 101 exReq).2 = .error .storage) :=
  C5_create_empty_cart exEnv exDB 101 exReq { ID := 11, UserID := 101, TotalPrice := 0 }
    (by decide) (by decide)

/-- C6 as it is stated, at a failing input: cart 10 of user 100 holds three units
at the price 0.10.  `Create` returns an order; price times quantity accumulates
to 306 units of 1/1024 (in `float64` to 0.30000000000000004), and the total
price of the order, read back from its `decimal(10,2)` column, is 0.30, which is
307 units: it is not the accumulated sum. -/
theorem C6_total_price_is_not_the_float_sum :
    orderRepository.Create exEnv exCents 100 exReq
        = (exCentsOrdered,
            .ok { order := exCentsOrder, OrderItems := [exCentsItem], Transactions := [] })
    ∧ ((exCents.cartItems.filter (fun i => i.CartID = 10)).map
          (fun i => i.Price * ((i.Quantity : Int) : Fixed))).foldl (fun x y => x + y) 0 = ⟨306⟩
    ∧ exCentsOrder.TotalPrice = ⟨307⟩
    ∧ exCentsOrder.TotalPrice
        ≠ ((exCents.cartItems.filter (fun i => i.CartID = 10)).map
            (fun i => i.Price * ((i.Quantity : Int) : Fixed))).foldl (fun x y => x + y) 0 :=
  ⟨by rfl, by decide, by decide, by decide⟩

/-- C6, amended: the order a successful `Create` returns is a row of the orders
table and its total price is the sum, accumulated from 0 in cart order, of price
times quantity over the items of the cart of the user, with the prices stored in
the cart items, rounded to two decimal places as the `decimal(10,2)` column of
the orders table holds it. -/
theorem C6_create_total_price [Zero F] [Add F] [Mul F] [IntCast F] [DecimalColumn F]
    (env : CreateEnv) (db db1 : DB F) (userID : UUID) (req : CreateOrderRequest)
    (entity : OrderEntity F)
    (h : orderRepository.Create env db userID req = (db1, .ok entity)) :
    ∃ cart, First (fun c => c.ID) (fun c => c.UserID = userID) db.carts = some cart
      ∧ db.cartItems.filter (fun i => i.CartID = cart.ID) ≠ []
      ∧ entity.order ∈ db1.orders
      ∧ entity.order.TotalPrice
          = DecimalColumn.decimal_10_2
              (((db.cartItems.filter (fun i => i.CartID = cart.ID)).map
                (fun i => i.Price * ((i.Quantity : Int) : F))).foldl (fun x y => x + y) 0) := by
  obtain ⟨cart, hcart, hne, hord, _, horders, _⟩ := Create_ok env db db1 userID req entity h
  refine ⟨cart, hcart, hne, ?_, ?_⟩
  · rw [horders]; simp
  · rw [hord, List.foldl_map]
    rfl

/-- C6, amended, at an example where rounding shows: the order of user 100 for
the cart of `exCents`, three units at the cart price 0.10, has the total price
0.30, and that is the accumulated sum after rounding. -/
theorem C6_create_total_price_witness :
    (∃ cart, First (fun c => c.ID) (fun c => c.UserID = 100) exCents.carts = some cart
      ∧ exCents.cartItems.filter (fun i => i.CartID = cart.ID) ≠ []
      ∧ exCentsOrder ∈ exCentsOrdered.orders
      ∧ exCentsOrder.TotalPrice
          = DecimalColumn.decimal_10_2
              (((exCents.cartItems.filter (fun i => i.CartID = cart.ID)).map
                (fun i => i.Price * ((i.Quantity : Int) : Fixed))).foldl (fun x y => x + y) 0))
    ∧ exCentsOrder.TotalPrice = Fixed.ofThousandths 300 :=
  ⟨C6_create_total_price exEnv exCents exCentsOrdered 100 exReq
      { order := exCentsOrder, OrderItems := [exCentsItem], Transactions := [] } (by rfl),
    by decide⟩

/-- C7: a successful `Create` appends to the order items table one row per item
of the cart of the user, in cart order: as many rows as cart items, the row at
each position carrying the product id, the quantity and the stored price of
the cart item at that position and the id of the new order.  When no earlier
row carries that order id, these rows are the items of the order returned. -/
theorem C7_create_order_items [Zero F] [Add F] [Mul F] [IntCast F] [DecimalColumn F] (env : CreateEnv)
    (db db1 : DB F) (userID : UUID) (req : CreateOrderRequest) (entity : OrderEntity F)
    (h : orderRepository.Create env db userID req = (db1, .ok entity)) :
    ∃ cart news, First (fun c => c.ID) (fun c => c.UserID = userID) db.carts = some cart
      ∧ db1.orderItems = db.orderItems ++ news
      ∧ news.length = (db.cartItems.filter (fun i => i.CartID = cart.ID)).length
      ∧ news.map (fun i => (i.ProductID, i.Quantity, i.Price))
          = (db.cartItems.filter (fun i => i.CartID = cart.ID)).map
              (fun c => (c.ProductID, c.Quantity, c.Price))
      ∧ (∀ i ∈ news, i.OrderID = entity.order.ID)
      ∧ ((∀ i ∈ db.orderItems, i.OrderID ≠ entity.order.ID) → entity.OrderItems = news) := by
  obtain ⟨cart, hcart, _, hord, _, _, hitems, _, _, _, _, hent⟩ :=
    Create_ok env db db1 userID req entity h
  have hid : entity.order.ID = env.orderID := by rw [hord]
  refine ⟨cart, _, hcart, hitems, Create_newItems_length _ _ _ _,
    Create_newItems_fields _ _ _ _, ?_, ?_⟩
  · intro i hi
    rw [hid]
    exact Create_newItems_orderID _ _ _ _ i hi
  · intro hold
    rw [hent, hitems, List.filter_append]
    have h1 : db.orderItems.filter (fun i => decide (i.OrderID = env.orderID)) = [] := by
      rw [List.filter_eq_nil_iff]
      intro i hi
      have := hold i hi
      rw [hid] at this
      simpa using this
    have h2 : (Create.newItems env env.orderID 0
        (db.cartItems.filter (fun i => decide (i.CartID = cart.ID)))).filter
          (fun i => decide (i.OrderID = env.orderID))
        = Create.newItems env env.orderID 0
            (db.cartItems.filter (fun i => decide (i.CartID = cart.ID))) := by
      rw [List.filter_eq_self]
      intro i hi
      simpa using Create_newItems_orderID _ _ _ _ i hi
    rw [h1, h2, List.nil_append]

/-- C7 at an example: the cart of two items of `exTwo` becomes two order items. -/
theorem C7_create_order_items_witness :
    ∃ cart news, First (fun c => c.ID) (fun c => c.UserID = 100) exTwo.carts = some cart
      ∧ (orderRepository.Create exEnv exTwo 100 exReq).1.orderItems = exTwo.orderItems ++ news
      ∧ news.length = (exTwo.cartItems.filter (fun i => i.CartID = cart.ID)).length
      ∧ news.map (fun i => (i.ProductID, i.Quantity, i.Price))
          = (exTwo.cartItems.filter (fun i => i.CartID = cart.ID)).map
              (fun c => (c.ProductID, c.Quantity, c.Price))
      ∧ (∀ i ∈ news, i.OrderID = 50)
      ∧ ((∀ i ∈ exTwo.orderItems, i.OrderID ≠ 50) →
          [({ ID := 60, OrderID := 50, ProductID := 1, Quantity := 1, Price := 500 }
              : OrderItem Int),
            { ID := 61, OrderID := 50, ProductID := 2, Quantity := 3, Price := 200 }] = news) :=
  C7_create_order_items exEnv exTwo (orderRepository.Create exEnv exTwo 100 exReq).1 100 exReq
    { order := { exOrder "pending" with TotalPrice := 1100 }
      OrderItems := [{ ID := 60, OrderID := 50, ProductID := 1, Quantity := 1, Price := 500 },
        { ID := 61, OrderID := 50, ProductID := 2, Quantity := 3, Price := 200 }]
      Transactions := [] } (by rfl)

/-- C8: after a successful `Create` for a user the carts table is as before, so
the cart of the user is still there; no cart item of that cart is left; and the
cart items of every other cart are the ones from before the call. -/
theorem C8_create_clears_cart [Zero F] [Add F] [Mul F] [IntCast F] [DecimalColumn F] (env : CreateEnv)
    (db db1 : DB F) (userID : UUID) (req : CreateOrderRequest) (entity : OrderEntity F)
    (h : orderRepository.Create env db userID req = (db1, .ok entity)) :
    ∃ cart, First (fun c => c.ID) (fun c => c.UserID = userID) db.carts = some cart
      ∧ db1.carts = db.carts
      ∧ First (fun c => c.ID) (fun c => c.UserID = userID) db1.carts = some cart
      ∧ db1.cartItems.filter (fun i => i.CartID = cart.ID) = []
      ∧ ∀ other, other ≠ cart.ID →
          db1.cartItems.filter (fun i => i.CartID = other)
            = db.cartItems.filter (fun i => i.CartID = other) :=
  Create_clears_cart env db db1 userID req entity h

/-- C8 at an example: the order of user 100 on `exDB`. -/
theorem C8_create_clears_cart_witness :
    ∃ cart, First (fun c => c.ID) (fun c => c.UserID = 100) exDB.carts = some cart
      ∧ (exOrdered "pending").carts = exDB.carts
      ∧ First (fun c => c.ID) (fun c => c.UserID = 100) (exOrdered "pending").carts = some cart
      ∧ (exOrdered "pending").cartItems.filter (fun i => i.CartID = cart.ID) = []
      ∧ ∀ other, other ≠ cart.ID →
          (exOrdered "pending").cartItems.filter (fun i => i.CartID = other)
            = exDB.cartItems.filter (fun i => i.CartID = other) :=
  C8_create_clears_cart exEnv exDB (exOrdered "pending") 100 exReq
    { order := exOrder "pending", OrderItems := [exOrderItem], Transactions := [] } (by rfl)

/-- C9: when `Create` has returned an order for a user and is called again for
that user on the database it has left, the second call returns the error of
the empty cart (a storage error when loading the cart fails) and leaves the
database as it is: no second order, no stock changed. -/
theorem C9_create_twice [Zero F] [Add F] [Mul F] [IntCast F] [DecimalColumn F] (env env2 : CreateEnv)
    (db db1 : DB F) (userID : UUID) (req req2 : CreateOrderRequest) (entity : OrderEntity F)
    (h : orderRepository.Create env db userID req = (db1, .ok entity)) :
    (orderRepository.Create env2 db1 userID req2).1 = db1
    ∧ (env2.fault ≠ some .loadCart →
        (orderRepository.Create env2 db1 userID req2).2 = .error EmptyCart)
    ∧ (env2.fault = some .loadCart →
        (orderRepository.Create env2 db1 userID req2).2 = .error .storage) := by
  obtain ⟨cart, _, _, hcart1, hempty, _⟩ := Create_clears_cart env db db1 userID req entity h
  exact Create_of_empty_parts env2 db1 userID req2 cart hcart1 hempty

/-- C9 at an example: user 100 orders on `exDB` and orders again at once. -/
theorem C9_create_twice_witness :
    (orderRepository.Create exEnv2 (exOrdered "pending") 100 exReq).1 = exOrdered "pending"
    ∧ (exEnv2.fault ≠ some .loadCart →
        (orderRepository.Create exEnv2 (exOrdered "pending") 100 exReq).2 = .error EmptyCart)
    ∧ (exEnv2.fault = some .loadCart →
        (orderRepository.Create exEnv2 (exOrdered "pending") 100 exReq).2 = .error .storage) :=
  C9_create_twice exEnv exEnv2 exDB (exOrdered "pending") 100 exReq exReq
    { order := exOrder "pending", OrderItems := [exOrderItem], Transactions := [] } (by rfl)

/-- C10: `Cancel` returns without error only for an order whose status is
"pending".  For an order of any other status it leaves the database as it is
(every stock and the order as before) and returns the error of the illegal
state (a storage error when loading the order fails). -/
theorem C10_cancel_only_pending (fault : Option CancelStep) (db : DB F) (id : UUID)
    (order : Order F)
    (horder : First (fun o => o.ID) (fun o => o.ID = id) db.orders = some order) :
    ((orderRepository.Cancel fault db id).2 = .ok () → order.Status = "pending")
    ∧ (order.Status ≠ "pending" →
        (orderRepository.Cancel fault db id).1 = db
        ∧ (fault ≠ some .loadOrder →
            (orderRepository.Cancel fault db id).2 = .error InvalidOrderState)
        ∧ (fault = some .loadOrder →
            (orderRepository.Cancel fault db id).2 = .error .storage)) := by
  constructor
  · intro hok
    obtain ⟨order1, h1, _, hst, _⟩ :=
      Cancel_ok fault db (orderRepository.Cancel fault db id).1 id (by rw [← hok])
    rw [horder] at h1
    simp only [Option.some.injEq] at h1
    rw [h1]
    exact hst
  · intro hst
    obtain ⟨h1, h2⟩ := Cancel_not_pending fault db id order horder hst
    by_cases hf : fault = some .loadOrder
    · rw [h2 hf]
      exact ⟨rfl, fun hn => absurd hf hn, fun _ => rfl⟩
    · rw [h1 hf]
      exact ⟨rfl, fun _ => rfl, fun hn => absurd hn hf⟩

/-- C10 at an example: order 50 is cancelled already; cancelling it again
changes nothing and returns the error of the illegal state. -/
theorem C10_cancel_only_pending_witness :
    ((orderRepository.Cancel none (exOrdered "cancelled") 50).2 = .ok ()
        → (exOrder "cancelled").Status = "pending")
    ∧ ((exOrder "cancelled").Status ≠ "pending" →
        (orderRepository.Cancel none (exOrdered "cancelled") 50).1 = exOrdered "cancelled"
        ∧ ((none : Option CancelStep) ≠ some .loadOrder →
            (orderRepository.Cancel none (exOrdered "cancelled") 50).2
              = .error InvalidOrderState)
        ∧ ((none : Option CancelStep) = some .loadOrder →
            (orderRepository.Cancel none (exOrdered "cancelled") 50).2 = .error .storage)) :=
  C10_cancel_only_pending none (exOrdered "cancelled") 50 (exOrder "cancelled") (by decide)

/-- C11: a successful `Cancel` of a pending order adds to the stock of every
product the sum of the quantities of the items of the order that reference it;
a product that no item of the order references gets 0 added, so its stock stays
as it is; the order is found with the status "cancelled" afterwards.  When no
statement fails, `Cancel` of a pending order is successful. -/
theorem C11_cancel_restores_stock (fault : Option CancelStep) (db db1 : DB F) (id : UUID)
    (order : Order F)
    (horder : First (fun o => o.ID) (fun o => o.ID = id) db.orders = some order)
    (hst : order.Status = "pending")
    (h : orderRepository.Cancel fault db id = (db1, .ok ())) :
    db1.products = db.products.map (fun p =>
        { p with Stock := p.Stock
            + quantityOf (db.orderItems.filter (fun i => i.OrderID = id)) p.ID })
    ∧ (∀ productID, (∀ i ∈ db.orderItems.filter (fun i => i.OrderID = id),
          i.ProductID ≠ productID) →
        quantityOf (db.orderItems.filter (fun i => i.OrderID = id)) productID = 0)
    ∧ First (fun o => o.ID) (fun o => o.ID = id) db1.orders
        = some { order with Status := "cancelled" }
    ∧ ∃ db2, orderRepository.Cancel none db id = (db2, .ok ()) := by
  obtain ⟨_, _, _, _, hp, _⟩ := Cancel_ok fault db db1 id h
  obtain ⟨order1, h1, _, h3⟩ := Cancel_ok_order fault db db1 id h
  rw [horder] at h1
  simp only [Option.some.injEq] at h1
  subst h1
  exact ⟨hp, fun productID hno => quantityOf_eq_zero _ _ hno, h3,
    Cancel_none_ok db id order horder hst⟩

/-- C11 at the example of the specification: the pending order has two units of
product 1 and one unit of product 2; the stocks go from 3 and 4 to 5 and 5. -/
theorem C11_cancel_restores_stock_witness :
    (exPlaced "cancelled" 5 5).products = (exPlaced "pending" 3 4).products.map (fun p =>
        { p with Stock := p.Stock
            + quantityOf ((exPlaced "pending" 3 4).orderItems.filter
                (fun i => i.OrderID = 50)) p.ID })
    ∧ (∀ productID, (∀ i ∈ (exPlaced "pending" 3 4).orderItems.filter
          (fun i => i.OrderID = 50), i.ProductID ≠ productID) →
        quantityOf ((exPlaced "pending" 3 4).orderItems.filter (fun i => i.OrderID = 50))
          productID = 0)
    ∧ First (fun o => o.ID) (fun o => o.ID = 50) (exPlaced "cancelled" 5 5).orders
        = some { exOrder "pending" with Status := "cancelled" }
    ∧ ∃ db2, orderRepository.Cancel none (exPlaced "pending" 3 4) 50 = (db2, .ok ()) :=
  C11_cancel_restores_stock none (exPlaced "pending" 3 4) (exPlaced "cancelled" 5 5) 50
    (exOrder "pending") (by decide) (by decide) (by rfl)

/-- C12: on a database where every order item belongs to an order, when
`Create` has returned an order and `Cancel` of that order succeeds on the
database `Create` has left, the products table, so the stock of every product,
is the one before `Create`.  When no statement fails, that `Cancel` succeeds. -/
theorem C12_create_cancel_round_trip [Zero F] [Add F] [Mul F] [IntCast F] [DecimalColumn F] (env : CreateEnv)
    (db db1 : DB F) (userID : UUID) (req : CreateOrderRequest) (entity : OrderEntity F)
    (h : orderRepository.Create env db userID req = (db1, .ok entity))
    (hfk : orderItemsHaveOrder db) :
    (∀ fault db2, orderRepository.Cancel fault db1 entity.order.ID = (db2, .ok ()) →
        db2.products = db.products)
    ∧ ∃ db2, orderRepository.Cancel none db1 entity.order.ID = (db2, .ok ()) := by
  obtain ⟨cart, _, hid, hstat, hfirst, hfilter, hprod⟩ :=
    Create_ok_order env db db1 userID req entity h hfk
  rw [hid]
  constructor
  · intro fault db2 hc
    obtain ⟨_, _, _, _, hp, _⟩ := Cancel_ok fault db1 db2 env.orderID hc
    rw [hp, hfilter, hprod]
    exact products_add_sub db.products _
  · exact Cancel_none_ok db1 env.orderID entity.order hfirst hstat

/-- C12 at an example: user 100 orders the cart of `exDB` and cancels; the stock
of product 1 is 1 again. -/
theorem C12_create_cancel_round_trip_witness :
    (∀ fault db2, orderRepository.Cancel fault (exOrdered "pending") (exOrder "pending").ID
          = (db2, .ok ()) → db2.products = exDB.products)
    ∧ ∃ db2, orderRepository.Cancel none (exOrdered "pending") (exOrder "pending").ID
        = (db2, .ok ()) :=
  C12_create_cancel_round_trip exEnv exDB (exOrdered "pending") 100 exReq
    { order := exOrder "pending", OrderItems := [exOrderItem], Transactions := [] } (by rfl)
    (by unfold orderItemsHaveOrder; decide)

/-- C13: after a successful `Cancel` of an order, a second `Cancel` of the same
order leaves the database (stock and order) as it is and returns the error of
the illegal state (a storage error when loading the order fails). -/
theorem C13_cancel_twice (fault fault2 : Option CancelStep) (db db1 : DB F) (id : UUID)
    (h : orderRepository.Cancel fault db id = (db1, .ok ())) :
    (orderRepository.Cancel fault2 db1 id).1 = db1
    ∧ (fault2 ≠ some .loadOrder →
        (orderRepository.Cancel fault2 db1 id).2 = .error InvalidOrderState)
    ∧ (fault2 = some .loadOrder →
        (orderRepository.Cancel fault2 db1 id).2 = .error .storage) := by
  obtain ⟨order, _, _, h3⟩ := Cancel_ok_order fault db db1 id h
  have hne : ({ order with Status := "cancelled" } : Order F).Status ≠ "pending" := by
    show "cancelled" ≠ "pending"
    decide
  obtain ⟨h1, h2⟩ := Cancel_not_pending fault2 db1 id _ h3 hne
  by_cases hf : fault2 = some .loadOrder
  · rw [h2 hf]
    exact ⟨rfl, fun hn => absurd hf hn, fun _ => rfl⟩
  · rw [h1 hf]
    exact ⟨rfl, fun _ => rfl, fun hn => absurd hn hf⟩

/-- C13 at an example: the order of `exPlaced` is cancelled twice. -/
theorem C13_cancel_twice_witness :
    (orderRepository.Cancel none (exPlaced "cancelled" 5 5) 50).1 = exPlaced "cancelled" 5 5
    ∧ ((none : Option CancelStep) ≠ some .loadOrder →
        (orderRepository.Cancel none (exPlaced "cancelled" 5 5) 50).2
          = .error InvalidOrderState)
    ∧ ((none : Option CancelStep) = some .loadOrder →
        (orderRepository.Cancel none (exPlaced "cancelled" 5 5) 50).2 = .error .storage) :=
  C13_cancel_twice none none (exPlaced "pending" 3 4) (exPlaced "cancelled" 5 5) 50 (by rfl)

/-- C14: when the cart of the user holds one line item for product P, of
quantity q (not negative), `AddItem` of n units of P with q + n within the stock
of P succeeds when no statement fails, for n >= 1 as for every other n, and the
cart then holds one line item for P, of quantity q + n and with the current
price of P; no row is added. -/
theorem C14_add_item_merges [Zero F] [Add F] [Mul F] [IntCast F] (env : AddItemEnv) (db : DB F)
    (userID : UUID) (item : AddToCartRequest) (cart : Cart F) (product : Product F)
    (existing : CartItem F)
    (hf : env.fault = none)
    (hcart : First (fun c => c.ID) (fun c => c.UserID = userID) db.carts = some cart)
    (hprod : First (fun p => p.ID) (fun p => p.ID = item.ProductID) db.products = some product)
    (hline : db.cartItems.filter
        (fun i => i.CartID = cart.ID ∧ i.ProductID = item.ProductID) = [existing])
    (hq : 0 ≤ existing.Quantity)
    (hstock : existing.Quantity + item.Quantity ≤ product.Stock) :
    ∃ db1, cartRepository.AddItem env db userID item = (db1, .ok ())
      ∧ db1.cartItems.filter (fun i => i.CartID = cart.ID ∧ i.ProductID = item.ProductID)
          = [{ existing with Quantity := existing.Quantity + item.Quantity,
                             Price := product.Price }]
      ∧ db1.cartItems.length = db.cartItems.length := by
  have hfind := First_of_filter_singleton (fun i : CartItem F => i.ID) _ _ _ hline
  rw [AddItem_found env db userID item cart product hcart hprod (by simp [hf]) (by simp [hf])]
  rw [if_neg (by omega), if_neg (by simp [hf]), hfind]
  simp only
  rw [if_neg (by omega), if_neg (by simp [hf])]
  refine ⟨_, rfl, ?_, by simp⟩
  simp only
  rw [List.filter_map]
  have hc : ((fun i : CartItem F => decide (i.CartID = cart.ID ∧ i.ProductID = item.ProductID))
      ∘ fun i => if i.ID = existing.ID then
          { i with Quantity := existing.Quantity + item.Quantity, Price := product.Price }
        else i)
      = fun i => decide (i.CartID = cart.ID ∧ i.ProductID = item.ProductID) := by
    funext i
    simp only [Function.comp]
    split <;> rfl
  rw [hc, hline]
  simp

/-- C14 at the example of the specification: stock 10, four units in the cart,
three more added: one line item of seven units at the current price 500. -/
theorem C14_add_item_merges_witness :
    ∃ db1, cartRepository.AddItem exAdd exMerge 100 { ProductID := 1, Quantity := 3 }
        = (db1, .ok ())
      ∧ db1.cartItems.filter (fun i => i.CartID = 10 ∧ i.ProductID = 1)
          = [{ ID := 20, CartID := 10, ProductID := 1, Quantity := 4 + 3, Price := 500 }]
      ∧ db1.cartItems.length = exMerge.cartItems.length :=
  C14_add_item_merges exAdd exMerge 100 { ProductID := 1, Quantity := 3 }
    { ID := 10, UserID := 100, TotalPrice := 0 } { exProduct with Stock := 10 }
    { ID := 20, CartID := 10, ProductID := 1, Quantity := 4, Price := 300 }
    rfl (by decide) (by decide) (by decide) (by decide) (by decide)

/-- C15, the code at the failing input: product 1 has ten units in stock and
cart 10 of user 100 holds four units of it.  `AddItem` of seven more units is
refused with `gorm.ErrInvalidData` when the lookup of the line item is
answered.  When that lookup gets a storage error, the error is taken for "no
such line item": the call returns no error and the cart holds a second line
item for product 1, of seven units. -/
theorem C15_lookup_error_adds_line :
    preloadedStock exMerge.products 1 = 10
    ∧ exMerge.cartItems.map (fun i => (i.CartID, i.ProductID, i.Quantity)) = [(10, 1, 4)]
    ∧ cartRepository.AddItem exAdd exMerge 100 { ProductID := 1, Quantity := 7 }
        = (exMerge, .error InsufficientStock)
    ∧ cartRepository.AddItem { exAdd with fault := some .findItem } exMerge 100
          { ProductID := 1, Quantity := 7 }
        = ({ exMerge with cartItems :=
              [{ ID := 20, CartID := 10, ProductID := 1, Quantity := 4, Price := 300 },
               { ID := 21, CartID := 10, ProductID := 1, Quantity := 7, Price := 500 }] },
            .ok ()) :=
  ⟨by decide, by decide, by rfl, by rfl⟩

/-- C17: for a user whose cart holds no line item for product P, when no
statement fails, `AddItem` of n units of P returns `gorm.ErrInvalidData` and
changes nothing when n exceeds the stock of P, returns
`gorm.ErrRecordNotFound` and changes nothing when there is no product P, and
otherwise (the identifier of the new row being unused) appends one cart item of
quantity n with the current price of P to the table, whose rows stay as they
are, and changes no other table. -/
theorem C17_add_item_new_line [Zero F] [Add F] [Mul F] [IntCast F] (env : AddItemEnv)
    (db : DB F) (userID : UUID) (item : AddToCartRequest) (cart : Cart F)
    (hf : env.fault = none)
    (hcart : First (fun c => c.ID) (fun c => c.UserID = userID) db.carts = some cart)
    (hline : db.cartItems.filter
        (fun i => i.CartID = cart.ID ∧ i.ProductID = item.ProductID) = []) :
    (∀ product,
        First (fun p => p.ID) (fun p => p.ID = item.ProductID) db.products = some product →
        product.Stock < item.Quantity →
        cartRepository.AddItem env db userID item = (db, .error InsufficientStock))
    ∧ (First (fun p => p.ID) (fun p => p.ID = item.ProductID) db.products = none →
        cartRepository.AddItem env db userID item = (db, .error NotFound))
    ∧ (∀ product,
        First (fun p => p.ID) (fun p => p.ID = item.ProductID) db.products = some product →
        item.Quantity ≤ product.Stock →
        db.cartItems.any (fun i => i.ID = env.itemID) = false →
        cartRepository.AddItem env db userID item
          = ({ db with cartItems := db.cartItems ++
                [{ ID := env.itemID, CartID := cart.ID, ProductID := item.ProductID,
                   Quantity := item.Quantity, Price := product.Price }] }, .ok ())) := by
  have hfind : First (fun i : CartItem F => i.ID)
      (fun i => decide (i.CartID = cart.ID ∧ i.ProductID = item.ProductID)) db.cartItems
        = none := (First_eq_none_iff _ _ _).mpr hline
  refine ⟨?_, ?_, ?_⟩
  · intro product hprod hlt
    rw [AddItem_found env db userID item cart product hcart hprod (by simp [hf])
      (by simp [hf]), if_pos hlt]
    rfl
  · intro hnone
    have hg : env.getCartFault ≠ some .loadCart := by
      simp [AddItemEnv.getCartFault, hf]
    simp only [cartRepository.AddItem, GetByUserID_found env.cartID env.getCartFault db userID
      cart hcart hg, hf, hnone]
    rfl
  · intro product hprod hle hfresh
    rw [AddItem_found env db userID item cart product hcart hprod (by simp [hf])
      (by simp [hf]), if_neg (by omega), if_neg (by simp [hf]), hfind]
    simp only
    rw [if_neg (by simp [hf, hfresh])]

/-- C17 at an example: user 101 has an empty cart in `exMerge`; adding eleven
units of product 1 (stock 10) fails, adding product 9 fails, adding two units
of product 1 appends one line item at price 500. -/
theorem C17_add_item_new_line_witness :
    (∀ product,
        First (fun p => p.ID) (fun p => p.ID = 1) exMerge.products = some product →
        product.Stock < 11 →
        cartRepository.AddItem exAdd exMerge 101 { ProductID := 1, Quantity := 11 }
          = (exMerge, .error InsufficientStock))
    ∧ (First (fun p => p.ID) (fun p => p.ID = 9) exMerge.products = none →
        cartRepository.AddItem exAdd exMerge 101 { ProductID := 9, Quantity := 1 }
          = (exMerge, .error NotFound))
    ∧ (∀ product,
        First (fun p => p.ID) (fun p => p.ID = 1) exMerge.products = some product →
        2 ≤ product.Stock →
        exMerge.cartItems.any (fun i => i.ID = exAdd.itemID) = false →
        cartRepository.AddItem exAdd exMerge 101 { ProductID := 1, Quantity := 2 }
          = ({ exMerge with cartItems := exMerge.cartItems ++
                [{ ID := 21, CartID := 11, ProductID := 1, Quantity := 2,
                   Price := product.Price }] }, .ok ())) :=
  ⟨(C17_add_item_new_line exAdd exMerge 101 { ProductID := 1, Quantity := 11 }
      { ID := 11, UserID := 101, TotalPrice := 0 } rfl (by decide) (by decide)).1,
    (C17_add_item_new_line exAdd exMerge 101 { ProductID := 9, Quantity := 1 }
      { ID := 11, UserID := 101, TotalPrice := 0 } rfl (by decide) (by decide)).2.1,
    (C17_add_item_new_line exAdd exMerge 101 { ProductID := 1, Quantity := 2 }
      { ID := 11, UserID := 101, TotalPrice := 0 } rfl (by decide) (by decide)).2.2⟩

/-- C18: for a cart item whose product is found, `UpdateItem` with a quantity
above the current stock of the product returns an error and leaves the
database as it is (`gorm.ErrInvalidData` unless loading the item fails); with
a quantity within the stock, when no statement fails, it sets the quantity of
the item to the given value and leaves its price, its other columns and all
other tables as they are. -/
theorem C18_update_item (fault : Option UpdateItemStep) (db : DB F) (cartItemID : UUID)
    (quantity : Int) (cartItem : CartItem F) (product : Product F)
    (hitem : First (fun i => i.ID) (fun i => i.ID = cartItemID) db.cartItems = some cartItem)
    (hprod : First (fun p => p.ID) (fun p => p.ID = cartItem.ProductID) db.products
        = some product) :
    (product.Stock < quantity →
        (cartRepository.UpdateItem fault db cartItemID quantity).1 = db
        ∧ (fault ≠ some .loadItem →
            (cartRepository.UpdateItem fault db cartItemID quantity).2
              = .error InsufficientStock)
        ∧ (fault = some .loadItem →
            (cartRepository.UpdateItem fault db cartItemID quantity).2 = .error .storage))
    ∧ (quantity ≤ product.Stock → fault = none →
        cartRepository.UpdateItem fault db cartItemID quantity
          = ({ db with cartItems := db.cartItems.map (fun i =>
                if i.ID = cartItemID then { i with Quantity := quantity } else i) }, .ok ())
        ∧ First (fun i => i.ID) (fun i => i.ID = cartItemID)
            (cartRepository.UpdateItem fault db cartItemID quantity).1.cartItems
            = some { cartItem with Quantity := quantity }) := by
  have hid : cartItem.ID = cartItemID := by
    have := (First_some_mem _ _ _ _ hitem).2
    simpa using this
  have hstock : preloadedStock db.products cartItem.ProductID = product.Stock := by
    simp only [preloadedStock, hprod]
  constructor
  · intro hlt
    by_cases hf : fault = some .loadItem
    · have hr : cartRepository.UpdateItem fault db cartItemID quantity
          = (db, .error .storage) := by
        simp only [cartRepository.UpdateItem, hf, if_true]
      rw [hr]
      exact ⟨rfl, fun hn => absurd hf hn, fun _ => rfl⟩
    · have hr : cartRepository.UpdateItem fault db cartItemID quantity
          = (db, .error .ErrInvalidData) := by
        simp only [cartRepository.UpdateItem, if_neg hf, hitem, hstock, if_pos hlt]
      rw [hr]
      exact ⟨rfl, fun _ => rfl, fun hn => absurd hn hf⟩
  · intro hle hf
    subst hf
    exact UpdateItem_within_stock db cartItemID quantity cartItem product hitem hprod hle

/-- C18 at an example: the item of `exMerge` (price 300, product price 500,
stock 10) is set to eleven units, which fails, and to six, which keeps the
price 300. -/
theorem C18_update_item_witness :
    (cartRepository.UpdateItem none exMerge 20 11).1 = exMerge
    ∧ (cartRepository.UpdateItem none exMerge 20 11).2 = .error InsufficientStock
    ∧ First (fun i => i.ID) (fun i => i.ID = 20)
        (cartRepository.UpdateItem none exMerge 20 6).1.cartItems
        = some { ID := 20, CartID := 10, ProductID := 1, Quantity := 6, Price := 300 } :=
  ⟨((C18_update_item none exMerge 20 11
      { ID := 20, CartID := 10, ProductID := 1, Quantity := 4, Price := 300 }
      { exProduct with Stock := 10 } (by decide) (by decide)).1 (by decide)).1,
    ((C18_update_item none exMerge 20 11
      { ID := 20, CartID := 10, ProductID := 1, Quantity := 4, Price := 300 }
      { exProduct with Stock := 10 } (by decide) (by decide)).1 (by decide)).2.1 (by decide),
    ((C18_update_item none exMerge 20 6
      { ID := 20, CartID := 10, ProductID := 1, Quantity := 4, Price := 300 }
      { exProduct with Stock := 10 } (by decide) (by decide)).2 (by decide) rfl).2⟩

/-- C16, the code at the failing input: no two cart items of `exMerge` have the
same cart and product.  User 100, whose cart holds product 1, adds three units
of it, and the lookup of the line item gets a storage error: the call returns
no error and the cart holds two line items for product 1. -/
theorem C16_lookup_error_duplicates_line :
    oneItemPerProduct exMerge
    ∧ cartRepository.AddItem { exAdd with fault := some .findItem } exMerge 100
          { ProductID := 1, Quantity := 3 }
        = ({ exMerge with cartItems :=
              [{ ID := 20, CartID := 10, ProductID := 1, Quantity := 4, Price := 300 },
               { ID := 21, CartID := 10, ProductID := 1, Quantity := 3, Price := 500 }] },
            .ok ())
    ∧ ¬ oneItemPerProduct
        (cartRepository.AddItem { exAdd with fault := some .findItem } exMerge 100
          { ProductID := 1, Quantity := 3 }).1 :=
  ⟨by decide, by rfl, by decide⟩

/-- C19, the claim fails: `UpdateItem` and `UpdateCartItem` accept the
quantities 0 and -2 for the item of `exMerge` (stock 10) and write them to the
row. -/
theorem C19_update_item_accepts_zero :
    cartRepository.UpdateItem none exMerge 20 0
      = ({ exMerge with cartItems :=
            [{ ID := 20, CartID := 10, ProductID := 1, Quantity := 0, Price := 300 }] }, .ok ())
    ∧ cartService.UpdateCartItem none exMerge 20 { Quantity := 0 }
      = ({ exMerge with cartItems :=
            [{ ID := 20, CartID := 10, ProductID := 1, Quantity := 0, Price := 300 }] }, .ok ())
    ∧ cartService.UpdateCartItem none exMerge 20 { Quantity := -2 }
      = ({ exMerge with cartItems :=
            [{ ID := 20, CartID := 10, ProductID := 1, Quantity := -2, Price := 300 }] },
          .ok ()) :=
  ⟨by rfl, by rfl, by rfl⟩

/-- C19 as amended: a quantity below 1 is rejected by the request layer:
`CartHandler.UpdateCartItem` answers such a request with status 400 and does
not call the service, so the database is as before.  `cartService.UpdateCartItem`
and `cartRepository.UpdateItem` themselves have no lower bound: for an item
and a product that are found, when no statement fails, they set every quantity
that is not above the stock. -/
theorem C19_quantity_validated_by_handler (fault : Option UpdateItemStep) (db : DB F)
    (cartItemID : UUID) (req : UpdateCartItemRequest) :
    (req.Quantity < 1 → ∀ itemId,
        CartHandler.UpdateCartItem fault db itemId (some req) = (db, StatusBadRequest))
    ∧ (∀ cartItem product,
        First (fun i => i.ID) (fun i => i.ID = cartItemID) db.cartItems = some cartItem →
        First (fun p => p.ID) (fun p => p.ID = cartItem.ProductID) db.products = some product →
        req.Quantity ≤ product.Stock →
        (cartService.UpdateCartItem none db cartItemID req).2 = .ok ()
        ∧ First (fun i => i.ID) (fun i => i.ID = cartItemID)
            (cartService.UpdateCartItem none db cartItemID req).1.cartItems
            = some { cartItem with Quantity := req.Quantity }) := by
  constructor
  · intro hlt itemId
    have hv : req.ValidateStruct = false := by
      simp only [UpdateCartItemRequest.ValidateStruct, decide_eq_false_iff_not]
      omega
    cases itemId with
    | none => rfl
    | some itemID => simp [CartHandler.UpdateCartItem, hv]
  · intro cartItem product hitem hprod hle
    obtain ⟨h1, h2⟩ :=
      UpdateItem_within_stock db cartItemID req.Quantity cartItem product hitem hprod hle
    simp only [cartService.UpdateCartItem]
    exact ⟨by rw [h1], h2⟩

/-- C19 as amended, at an example: the request for quantity 0 on the item of
`exMerge` gets status 400 from the handler; the service would set the quantity. -/
theorem C19_quantity_validated_by_handler_witness :
    CartHandler.UpdateCartItem none exMerge (some 20) (some { Quantity := 0 })
      = (exMerge, StatusBadRequest)
    ∧ First (fun i => i.ID) (fun i => i.ID = 20)
        (cartService.UpdateCartItem none exMerge 20 { Quantity := 0 }).1.cartItems
        = some { ID := 20, CartID := 10, ProductID := 1, Quantity := 0, Price := 300 } :=
  ⟨(C19_quantity_validated_by_handler none exMerge 20 { Quantity := 0 }).1 (by decide)
      (some 20),
    ((C19_quantity_validated_by_handler none exMerge 20 { Quantity := 0 }).2
      { ID := 20, CartID := 10, ProductID := 1, Quantity := 4, Price := 300 }
      { exProduct with Stock := 10 } (by decide) (by decide) (by decide)).2⟩

/-- C20: for a transaction that is found, when no statement fails,
`UpdateStatus` with one of the statuses "completed", "failed", "cancelled" and
"pending" sets the status of the transaction and sets the payment status of
the order of the transaction to "paid", "failed", "cancelled" and "pending"
respectively; every other column of that order, every other order and every
other table stay as they are. -/
theorem C20_update_status_payment (db : DB F) (id : UUID) (t : Transaction F)
    (status paymentStatus : String)
    (ht : First (fun t => t.ID) (fun t => t.ID = id) db.transactions = some t)
    (hs : (status, paymentStatus) ∈ [("completed", "paid"), ("failed", "failed"),
        ("cancelled", "cancelled"), ("pending", "pending")]) :
    transactionRepository.UpdateStatus none db id status
      = ({ db with
            transactions := db.transactions.map (fun t =>
              if t.ID = id then { t with Status := status } else t)
            orders := db.orders.map (fun o =>
              if o.ID = t.OrderID then { o with PaymentStatus := paymentStatus } else o) },
          .ok ()) := by
  rw [UpdateStatus_none db id status t ht]
  have hp : UpdateStatus.paymentStatus status = paymentStatus := by
    simp only [List.mem_cons, Prod.mk.injEq, List.mem_singleton, List.mem_nil_iff,
      or_false] at hs
    rcases hs with ⟨h1, h2⟩ | ⟨h1, h2⟩ | ⟨h1, h2⟩ | ⟨h1, h2⟩ <;> subst h1 <;> subst h2 <;> decide
  rw [hp]
  rfl

/-- C20 at an example: transaction 80 of order 50 becomes "completed" and the
order "paid". -/
theorem C20_update_status_payment_witness :
    transactionRepository.UpdateStatus none (exPayment "pending" "pending") 80 "completed"
      = (exPayment "completed" "paid", .ok ()) :=
  C20_update_status_payment (exPayment "pending" "pending") 80 (exTransaction "pending")
    "completed" "paid" (by decide) (by decide)

/-- C21: for a transaction that is found, when no statement fails,
`VerifyPayment` with the stored transaction identifier succeeds, after which
the transaction is found with the status "completed" and its order with the
payment status "paid"; with any other identifier it succeeds, after which the
transaction is found with the status "failed" and its order with the payment
status "failed". -/
theorem C21_verify_payment (db : DB F) (id : UUID) (req : VerifyPaymentRequest)
    (t : Transaction F)
    (ht : First (fun t => t.ID) (fun t => t.ID = id) db.transactions = some t) :
    (t.TransactionID = req.TransactionID →
      ∃ db1, paymentService.VerifyPayment false none db id req = (db1, .ok ())
        ∧ First (fun t => t.ID) (fun t => t.ID = id) db1.transactions
            = some { t with Status := "completed" }
        ∧ ∀ o, First (fun o => o.ID) (fun o => o.ID = t.OrderID) db.orders = some o →
            First (fun o => o.ID) (fun o => o.ID = t.OrderID) db1.orders
              = some { o with PaymentStatus := "paid" })
    ∧ (t.TransactionID ≠ req.TransactionID →
      ∃ db1, paymentService.VerifyPayment false none db id req = (db1, .ok ())
        ∧ First (fun t => t.ID) (fun t => t.ID = id) db1.transactions
            = some { t with Status := "failed" }
        ∧ ∀ o, First (fun o => o.ID) (fun o => o.ID = t.OrderID) db.orders = some o →
            First (fun o => o.ID) (fun o => o.ID = t.OrderID) db1.orders
              = some { o with PaymentStatus := "failed" }) := by
  constructor
  · intro heq
    obtain ⟨db1, h1, h2, _, h4⟩ := UpdateStatus_none_found db id "completed" t ht
    refine ⟨db1, ?_, h2, h4⟩
    rw [VerifyPayment_none db id req t ht, if_pos heq]
    exact h1
  · intro hne
    obtain ⟨db1, h1, h2, _, h4⟩ := UpdateStatus_none_found db id "failed" t ht
    refine ⟨db1, ?_, h2, h4⟩
    rw [VerifyPayment_none db id req t ht, if_neg hne]
    exact h1

/-- C21 at the example of the specification: transaction 80 of order 50 is
verified with its identifier and with another one. -/
theorem C21_verify_payment_witness :
    (∃ db1, paymentService.VerifyPayment false none (exPayment "pending" "pending") 80
          { TransactionID := "TXN_1_abcdefgh", PaymentData := "" } = (db1, .ok ())
        ∧ First (fun t => t.ID) (fun t => t.ID = 80) db1.transactions
            = some (exTransaction "completed")
        ∧ ∀ o, First (fun o => o.ID) (fun o => o.ID = 50)
              (exPayment "pending" "pending").orders = some o →
            First (fun o => o.ID) (fun o => o.ID = 50) db1.orders
              = some { o with PaymentStatus := "paid" })
    ∧ (∃ db1, paymentService.VerifyPayment false none (exPayment "pending" "pending") 80
          { TransactionID := "TXN_9_zzzzzzzz", PaymentData := "" } = (db1, .ok ())
        ∧ First (fun t => t.ID) (fun t => t.ID = 80) db1.transactions
            = some (exTransaction "failed")
        ∧ ∀ o, First (fun o => o.ID) (fun o => o.ID = 50)
              (exPayment "pending" "pending").orders = some o →
            First (fun o => o.ID) (fun o => o.ID = 50) db1.orders
              = some { o with PaymentStatus := "failed" }) :=
  ⟨(C21_verify_payment (exPayment "pending" "pending") 80
      { TransactionID := "TXN_1_abcdefgh", PaymentData := "" } (exTransaction "pending")
      (by decide)).1 (by decide),
    (C21_verify_payment (exPayment "pending" "pending") 80
      { TransactionID := "TXN_9_zzzzzzzz", PaymentData := "" } (exTransaction "pending")
      (by decide)).2 (by decide)⟩

/-- C22, the claim fails: transaction 80 is "completed" and its order "paid";
`CancelPayment` makes them "cancelled" and "cancelled", and `VerifyPayment` with
another identifier makes them "failed" and "failed". -/
theorem C22_completed_not_terminal :
    paymentService.CancelPayment none (exPayment "completed" "paid") 80
      = (exPayment "cancelled" "cancelled", .ok ())
    ∧ paymentService.VerifyPayment false none (exPayment "completed" "paid") 80
        { TransactionID := "TXN_9_zzzzzzzz", PaymentData := "" }
      = (exPayment "failed" "failed", .ok ()) :=
  ⟨by rfl, by rfl⟩

/-- C22 as amended: no status of a transaction is terminal.  For a transaction
that is found, whatever its status, when no statement fails, `VerifyPayment`
succeeds and leaves the status "completed" when the identifier submitted is the
stored one and "failed" otherwise, and `CancelPayment` succeeds and leaves the
status "cancelled". -/
theorem C22_status_overwritten (db : DB F) (id : UUID) (t : Transaction F)
    (ht : First (fun t => t.ID) (fun t => t.ID = id) db.transactions = some t) :
    (∀ req : VerifyPaymentRequest,
      ∃ db1, paymentService.VerifyPayment false none db id req = (db1, .ok ())
        ∧ First (fun t => t.ID) (fun t => t.ID = id) db1.transactions
            = some { t with Status :=
                if t.TransactionID = req.TransactionID then "completed" else "failed" })
    ∧ ∃ db1, paymentService.CancelPayment none db id = (db1, .ok ())
        ∧ First (fun t => t.ID) (fun t => t.ID = id) db1.transactions
            = some { t with Status := "cancelled" } := by
  constructor
  · intro req
    obtain ⟨db1, h1, h2, _⟩ := UpdateStatus_none_found db id
      (if t.TransactionID = req.TransactionID then "completed" else "failed") t ht
    exact ⟨db1, by rw [VerifyPayment_none db id req t ht]; exact h1, h2⟩
  · obtain ⟨db1, h1, h2, _⟩ := UpdateStatus_none_found db id "cancelled" t ht
    exact ⟨db1, h1, h2⟩

/-- C22 as amended, at an example: the transaction of `exPayment` in the status
"failed". -/
theorem C22_status_overwritten_witness :
    (∀ req : VerifyPaymentRequest,
      ∃ db1, paymentService.VerifyPayment false none (exPayment "failed" "failed") 80 req
          = (db1, .ok ())
        ∧ First (fun t => t.ID) (fun t => t.ID = 80) db1.transactions
            = some { exTransaction "failed" with Status :=
                if (exTransaction "failed").TransactionID = req.TransactionID then "completed"
                else "failed" })
    ∧ ∃ db1, paymentService.CancelPayment none (exPayment "failed" "failed") 80 = (db1, .ok ())
        ∧ First (fun t => t.ID) (fun t => t.ID = 80) db1.transactions
            = some { exTransaction "failed" with Status := "cancelled" } :=
  C22_status_overwritten (exPayment "failed" "failed") 80 (exTransaction "failed") (by decide)

/-- C23: `transactionRepository.Create` never changes a table other than the
transactions.  When the order of the request is not found it returns
`gorm.ErrRecordNotFound` (a storage error when loading the order fails) and
leaves the database as it is.  When the order is found, no statement fails and
the identifier of the new row is unused, it appends one transaction with the
status "pending", the total price of the order as amount, and the order id,
payment method and payment data of the request, and returns it. -/
theorem C23_create_transaction (env : CreateTransactionEnv) (db : DB F)
    (req : CreatePaymentRequest) :
    (transactionRepository.Create env db req).1.orders = db.orders
    ∧ (First (fun o => o.ID) (fun o => o.ID = req.OrderID) db.orders = none →
        (transactionRepository.Create env db req).1 = db
        ∧ (env.fault ≠ some .loadOrder →
            (transactionRepository.Create env db req).2 = .error NotFound)
        ∧ (env.fault = some .loadOrder →
            (transactionRepository.Create env db req).2 = .error .storage))
    ∧ (∀ order, First (fun o => o.ID) (fun o => o.ID = req.OrderID) db.orders = some order →
        env.fault = none → db.transactions.any (fun t => t.ID = env.id) = false →
        transactionRepository.Create env db req
          = ({ db with transactions := db.transactions ++
                [{ ID := env.id, OrderID := req.OrderID, Amount := order.TotalPrice,
                   PaymentMethod := req.PaymentMethod, Status := "pending",
                   TransactionID := env.transactionID, PaymentData := req.PaymentData }] },
              .ok { ID := env.id, OrderID := req.OrderID, Amount := order.TotalPrice,
                    PaymentMethod := req.PaymentMethod, Status := "pending",
                    TransactionID := env.transactionID, PaymentData := req.PaymentData })) := by
  refine ⟨?_, ?_, ?_⟩
  · simp only [transactionRepository.Create]
    split
    · rfl
    · split
      · rfl
      · split <;> rfl
  · intro hnone
    by_cases hf : env.fault = some .loadOrder
    · have hr : transactionRepository.Create env db req = (db, .error .storage) := by
        simp only [transactionRepository.Create, hf, if_true]
      rw [hr]
      exact ⟨rfl, fun hn => absurd hf hn, fun _ => rfl⟩
    · have hr : transactionRepository.Create env db req = (db, .error .ErrRecordNotFound) := by
        simp only [transactionRepository.Create, if_neg hf, hnone]
      rw [hr]
      exact ⟨rfl, fun _ => rfl, fun hn => absurd hn hf⟩
  · intro order horder hf hfresh
    simp only [transactionRepository.Create, hf, horder, hfresh]
    rw [if_neg (by simp), if_neg (by simp)]

/-- C23 at an example: a payment request for order 50 of `exOrdered`, and one
for order 99, which does not exist. -/
theorem C23_create_transaction_witness :
    (transactionRepository.Create exTxn1 (exOrdered "pending")
        { exPay with OrderID := 99 }).1 = exOrdered "pending"
    ∧ (transactionRepository.Create exTxn1 (exOrdered "pending")
        { exPay with OrderID := 99 }).2 = .error NotFound
    ∧ transactionRepository.Create exTxn1 (exOrdered "pending") exPay
        = ({ exOrdered "pending" with transactions :=
              [{ ID := 80, OrderID := 50, Amount := 600, PaymentMethod := "card",
                 Status := "pending", TransactionID := "TXN_1_aaaaaaaa", PaymentData := "" }] },
            .ok { ID := 80, OrderID := 50, Amount := 600, PaymentMethod := "card",
                  Status := "pending", TransactionID := "TXN_1_aaaaaaaa", PaymentData := "" }) :=
  ⟨((C23_create_transaction exTxn1 (exOrdered "pending") { exPay with OrderID := 99 }).2.1
      (by decide)).1,
    ((C23_create_transaction exTxn1 (exOrdered "pending") { exPay with OrderID := 99 }).2.1
      (by decide)).2.1 (by decide),
    (C23_create_transaction exTxn1 (exOrdered "pending") exPay).2.2 (exOrder "pending")
      (by decide) rfl (by decide)⟩

/-- C24, the claim fails: the empty cart of user 101, eleven units of a
product with ten in stock, and the cancellation of a cancelled order are
business-rule violations of the core, and each is answered with status 500. -/
theorem C24_business_errors_get_500 :
    (orderService.CreateOrder exEnv exDB 101 exReq).2 = .error EmptyCart
    ∧ OrderHandler.CreateOrder exEnv exDB 101 (some exReq) = (exDB, 500)
    ∧ (cartService.AddToCart exAdd exMerge 101 { ProductID := 1, Quantity := 11 }).2
        = .error InsufficientStock
    ∧ CartHandler.AddToCart exAdd exMerge 101 (some { ProductID := 1, Quantity := 11 })
        = (exMerge, 500)
    ∧ (orderService.CancelOrder none (exOrdered "cancelled") 50).2 = .error InvalidOrderState
    ∧ OrderHandler.CancelOrder none (exOrdered "cancelled") (some 50)
        = (exOrdered "cancelled", 500) :=
  ⟨by rfl, by rfl, by rfl, by rfl, by rfl, by rfl⟩

/-- C24 as amended: `OrderHandler.CreateOrder` and `CartHandler.AddToCart` answer
with status 400 exactly when the body cannot be parsed or fails validation, and
answer every error of the core, a business-rule violation like an
infrastructure failure, with status 500; `OrderHandler.CancelOrder` answers a
malformed id with status 400 and the error of the illegal state with status 500. -/
theorem C24_core_errors_answered_500 [Zero F] [Add F] [Mul F] [IntCast F] [DecimalColumn F] (cenv : CreateEnv)
    (aenv : AddItemEnv) (fault : Option CancelStep) (db : DB F) (userID : UUID) :
    (∀ req err, req.ValidateStruct = true →
        (orderService.CreateOrder cenv db userID req).2 = .error err →
        (OrderHandler.CreateOrder cenv db userID (some req)).2 = StatusInternalServerError)
    ∧ (∀ body, (OrderHandler.CreateOrder cenv db userID body).2 = StatusBadRequest
        ↔ (body = none ∨ ∃ req, body = some req ∧ req.ValidateStruct = false))
    ∧ (∀ req err, req.ValidateStruct = true →
        (cartService.AddToCart aenv db userID req).2 = .error err →
        (CartHandler.AddToCart aenv db userID (some req)).2 = StatusInternalServerError)
    ∧ (∀ body, (CartHandler.AddToCart aenv db userID body).2 = StatusBadRequest
        ↔ (body = none ∨ ∃ req, body = some req ∧ req.ValidateStruct = false))
    ∧ (∀ id, (orderService.CancelOrder fault db id).2 = .error InvalidOrderState →
        (OrderHandler.CancelOrder fault db (some id)).2 = StatusInternalServerError)
    ∧ (OrderHandler.CancelOrder fault db none).2 = StatusBadRequest := by
  refine ⟨?_, ?_, ?_, ?_, ?_, rfl⟩
  · intro req err hv herr
    rw [CreateOrder_status cenv db userID req hv, herr]
  · intro body
    cases body with
    | none => simp [OrderHandler.CreateOrder]
    | some req =>
      cases hv : req.ValidateStruct with
      | false => simp [OrderHandler.CreateOrder, hv]
      | true =>
        rw [CreateOrder_status cenv db userID req hv]
        simp only [reduceCtorEq, Option.some.injEq, false_or, exists_eq_left', hv,
          Bool.true_eq_false, iff_false]
        split <;> decide
  · intro req err hv herr
    rw [AddToCart_status aenv db userID req hv, herr]
  · intro body
    cases body with
    | none => simp [CartHandler.AddToCart]
    | some req =>
      cases hv : req.ValidateStruct with
      | false => simp [CartHandler.AddToCart, hv]
      | true =>
        rw [AddToCart_status aenv db userID req hv]
        simp only [reduceCtorEq, Option.some.injEq, false_or, exists_eq_left', hv,
          Bool.true_eq_false, iff_false]
        split <;> decide
  · intro id herr
    rw [CancelOrder_status fault db id, herr]

/-- C24 as amended, at an example: the order of the empty cart of user 101. -/
theorem C24_core_errors_answered_500_witness :
    (OrderHandler.CreateOrder exEnv exDB 101 (some exReq)).2 = StatusInternalServerError
    ∧ ((OrderHandler.CreateOrder exEnv exDB 101
          (some { exReq with PaymentMethod := "" })).2 = StatusBadRequest)
    ∧ (OrderHandler.CancelOrder none (exOrdered "cancelled") (some 50)).2
        = StatusInternalServerError :=
  ⟨(C24_core_errors_answered_500 exEnv exAdd none exDB 101).1 exReq EmptyCart
      (by decide) (by rfl),
    ((C24_core_errors_answered_500 exEnv exAdd none exDB 101).2.1
      (some { exReq with PaymentMethod := "" })).mpr
      (Or.inr ⟨{ exReq with PaymentMethod := "" }, rfl, by decide⟩),
    (C24_core_errors_answered_500 exEnv exAdd none (exOrdered "cancelled") 100).2.2.2.2.1 50
      (by rfl)⟩

/-- C25, the code at the failing input, in the interleaving that runs one call
after the other: one unit in stock, one unit in each of the two carts.  In
either order both calls of `Create` return an order, and the stock is -1. -/
theorem C25_serial_creates_oversell :
    exLastUnit.products.map (fun p => p.Stock) = [1]
    ∧ outcome (orderRepository.Create exEnv exLastUnit 100 exReq).2 = .ok ()
    ∧ outcome (orderRepository.Create exEnv2
        (orderRepository.Create exEnv exLastUnit 100 exReq).1 101 exReq).2 = .ok ()
    ∧ (orderRepository.Create exEnv2
        (orderRepository.Create exEnv exLastUnit 100 exReq).1 101 exReq).1.products.map
          (fun p => p.Stock) = [-1]
    ∧ outcome (orderRepository.Create exEnv exLastUnit 101 exReq).2 = .ok ()
    ∧ outcome (orderRepository.Create exEnv2
        (orderRepository.Create exEnv exLastUnit 101 exReq).1 100 exReq).2 = .ok ()
    ∧ (orderRepository.Create exEnv2
        (orderRepository.Create exEnv exLastUnit 101 exReq).1 100 exReq).1.products.map
          (fun p => p.Stock) = [-1] :=
  ⟨by decide, by rfl, by rfl, by decide, by rfl, by rfl, by decide⟩

/-- C26: order 50 gets transaction 80 and then transaction 81, both pending.
Transaction 81 is verified with its identifier: it is "completed" and the order
"paid".  Then transaction 80 is verified with another identifier: the order is
"failed" while transaction 81 is still "completed". -/
theorem C26_stale_retry_regresses :
    exTwoPayments.transactions.map (fun t => (t.ID, t.OrderID, t.Status))
      = [(80, 50, "pending"), (81, 50, "pending")]
    ∧ (paymentService.VerifyPayment false none exTwoPayments 81
        { TransactionID := "TXN_2_bbbbbbbb", PaymentData := "" }).2 = .ok ()
    ∧ exPaid.transactions.map (fun t => (t.ID, t.Status))
        = [(80, "pending"), (81, "completed")]
    ∧ exPaid.orders.map (fun o => (o.ID, o.PaymentStatus)) = [(50, "paid")]
    ∧ (paymentService.VerifyPayment false none exPaid 80
        { TransactionID := "TXN_0_cccccccc", PaymentData := "" }).2 = .ok ()
    ∧ exRegressed.transactions.map (fun t => (t.ID, t.Status))
        = [(80, "failed"), (81, "completed")]
    ∧ exRegressed.orders.map (fun o => (o.ID, o.PaymentStatus)) = [(50, "failed")] :=
  ⟨by decide, by rfl, by decide, by decide, by rfl, by decide, by decide⟩

/-- C27, the code at the failing sequence: the pending order 50 has reserved
two units of product 1 and one unit of product 2.  It is cancelled, set back
to "pending" by `UpdateOrderStatus`, and cancelled again: all three calls
succeed and the stocks have gone from 3 and 4 to 7 and 6, four units of
product 1 released against two reserved. -/
theorem C27_cancel_twice_releases_twice :
    quantityOf (exPlaced "pending" 3 4).orderItems 1 = 2
    ∧ quantityOf (exPlaced "pending" 3 4).orderItems 2 = 1
    ∧ orderRepository.Cancel none (exPlaced "pending" 3 4) 50
        = (exPlaced "cancelled" 5 5, .ok ())
    ∧ orderService.UpdateOrderStatus false (exPlaced "cancelled" 5 5) 50 { Status := "pending" }
        = (exPlaced "pending" 5 5, .ok ())
    ∧ orderRepository.Cancel none (exPlaced "pending" 5 5) 50
        = (exPlaced "cancelled" 7 6, .ok ()) :=
  ⟨by decide, by decide, by rfl, by rfl, by rfl⟩

/-- C28: for a user without cart row `Create` leaves the database as it is (no
cart, no order, no order item is created and every stock is as before) and
returns `gorm.ErrRecordNotFound`, which is not the error of the empty cart (a
storage error when loading the cart fails). -/
theorem C28_create_without_cart [Zero F] [Add F] [Mul F] [IntCast F] [DecimalColumn F] (env : CreateEnv)
    (db : DB F) (userID : UUID) (req : CreateOrderRequest)
    (hnone : First (fun c => c.ID) (fun c => c.UserID = userID) db.carts = none) :
    (orderRepository.Create env db userID req).1 = db
    ∧ (env.fault ≠ some .loadCart →
        (orderRepository.Create env db userID req).2 = .error .ErrRecordNotFound)
    ∧ (env.fault = some .loadCart →
        (orderRepository.Create env db userID req).2 = .error .storage)
    ∧ Error.ErrRecordNotFound ≠ EmptyCart := by
  by_cases hf : env.fault = some .loadCart
  · have hr : orderRepository.Create env db userID req = (db, .error .storage) := by
      simp only [orderRepository.Create, Begin, Tx.Rollback, hf, if_true]
    rw [hr]
    exact ⟨rfl, fun hn => absurd hf hn, fun _ => rfl, by decide⟩
  · have hr : orderRepository.Create env db userID req = (db, .error .ErrRecordNotFound) := by
      simp only [orderRepository.Create, Begin, Tx.Rollback, if_neg hf, hnone]
    rw [hr]
    exact ⟨rfl, fun _ => rfl, fun hn => absurd hn hf, by decide⟩

/-- C28 at an example: user 102 has no cart in `exDB`. -/
theorem C28_create_without_cart_witness :
    (orderRepository.Create exEnv exDB 102 exReq).1 = exDB
    ∧ (exEnv.fault ≠ some .loadCart →
        (orderRepository.Create exEnv exDB 102 exReq).2 = .error .ErrRecordNotFound)
    ∧ (exEnv.fault = some .loadCart →
        (orderRepository.Create exEnv exDB 102 exReq).2 = .error .storage)
    ∧ Error.ErrRecordNotFound ≠ EmptyCart :=
  C28_create_without_cart exEnv exDB 102 exReq (by decide)

/-- C29: a successful `Cancel` leaves the carts, cart items, order items and
transactions as they are; of the orders it changes the status of the order
cancelled and nothing else (payment status, shipping status, total price and
every other order are as before); of the products it changes the stock only. -/
theorem C29_cancel_frame (fault : Option CancelStep) (db db1 : DB F) (id : UUID)
    (h : orderRepository.Cancel fault db id = (db1, .ok ())) :
    db1.carts = db.carts ∧ db1.cartItems = db.cartItems
    ∧ db1.orderItems = db.orderItems ∧ db1.transactions = db.transactions
    ∧ db1.orders = db.orders.map (fun o =>
        if o.ID = id then { o with Status := "cancelled" } else o)
    ∧ db1.products.map (fun p => (p.ID, p.Name, p.Description, p.Price, p.Image, p.CategoryID))
        = db.products.map
            (fun p => (p.ID, p.Name, p.Description, p.Price, p.Image, p.CategoryID)) := by
  obtain ⟨_, _, _, _, hp, ho, h1, h2, h3, h4⟩ := Cancel_ok fault db db1 id h
  refine ⟨h1, h2, h3, h4, ho, ?_⟩
  rw [hp, List.map_map]
  rfl

/-- C29 at the example of `exPlaced`. -/
theorem C29_cancel_frame_witness :
    (exPlaced "cancelled" 5 5).carts = (exPlaced "pending" 3 4).carts
    ∧ (exPlaced "cancelled" 5 5).cartItems = (exPlaced "pending" 3 4).cartItems
    ∧ (exPlaced "cancelled" 5 5).orderItems = (exPlaced "pending" 3 4).orderItems
    ∧ (exPlaced "cancelled" 5 5).transactions = (exPlaced "pending" 3 4).transactions
    ∧ (exPlaced "cancelled" 5 5).orders = (exPlaced "pending" 3 4).orders.map (fun o =>
        if o.ID = 50 then { o with Status := "cancelled" } else o)
    ∧ (exPlaced "cancelled" 5 5).products.map
          (fun p => (p.ID, p.Name, p.Description, p.Price, p.Image, p.CategoryID))
        = (exPlaced "pending" 3 4).products.map
            (fun p => (p.ID, p.Name, p.Description, p.Price, p.Image, p.CategoryID)) :=
  C29_cancel_frame none (exPlaced "pending" 3 4) (exPlaced "cancelled" 5 5) 50 (by rfl)

/-- C30: for a product that is found, when no statement fails,
`productRepository.Update` succeeds, changes no other table, and the product
is then found with: the stock of the request when that is at least 0, so
with stock 0 when the request leaves the stock at its zero value, whatever the
stock was, and the old stock otherwise; the name, description, image and
category of the request when these are not empty (not `uuid.Nil`) and the old
ones otherwise; the price of the request, as the `decimal(10,2)` column holds
it (rounded to two decimal places), when that price is above 0 and the old
price otherwise. -/
theorem C30_update_product [Zero F] [LT F] [DecidableRel (fun a b : F => a < b)]
    [DecimalColumn F]
    (db : DB F) (id : UUID) (req : UpdateProductRequest F) (p : Product F)
    (hp : First (fun p => p.ID) (fun p => p.ID = id) db.products = some p) :
    ∃ q, (productRepository.Update none db id req).2 = .ok ()
      ∧ First (fun p => p.ID) (fun p => p.ID = id)
          (productRepository.Update none db id req).1.products = some q
      ∧ (productRepository.Update none db id req).1
          = { db with products := (productRepository.Update none db id req).1.products }
      ∧ (0 ≤ req.Stock → q.Stock = req.Stock)
      ∧ (req.Stock = 0 → q.Stock = 0)
      ∧ (req.Stock < 0 → q.Stock = p.Stock)
      ∧ q.Name = (if req.Name = "" then p.Name else req.Name)
      ∧ q.Description = (if req.Description = "" then p.Description else req.Description)
      ∧ q.Image = (if req.Image = "" then p.Image else req.Image)
      ∧ q.CategoryID = (if req.CategoryID = 0 then p.CategoryID else req.CategoryID)
      ∧ q.Price = (if 0 < req.Price then DecimalColumn.decimal_10_2 req.Price else p.Price)
      ∧ q.ID = p.ID := by
  have hr : productRepository.Update none db id req
      = ({ db with
            products :=
              db.products.map (fun p => if p.ID = id then Update.updates req p else p) },
          .ok ()) := by
    simp only [productRepository.Update, Begin, Tx.Commit, Update.imagesFail]
    rw [if_neg (by simp), if_neg (by simp), if_neg (by simp)]
  refine ⟨Update.updates req p, ?_, ?_, ?_, ?_, ?_, ?_, ?_, ?_, ?_, ?_, ?_, rfl⟩
  · rw [hr]
  · rw [hr]
    simp only
    rw [First_updates, hp]
    rfl
  · rw [hr]
  · intro h
    simp only [Update.updates]
    rw [if_pos h]
  · intro h
    simp only [Update.updates]
    rw [if_pos (by omega), h]
  · intro h
    simp only [Update.updates]
    rw [if_neg (by omega)]
  · by_cases h : req.Name = "" <;> simp [Update.updates, h]
  · by_cases h : req.Description = "" <;> simp [Update.updates, h]
  · by_cases h : req.Image = "" <;> simp [Update.updates, h]
  · by_cases h : req.CategoryID = 0 <;> simp [Update.updates, h]
  · rfl

/-- C30 at an example where rounding shows: product 1 of `exCents` has five
units in stock; a request that only names the price 19.999 (20479 units of
1/1024) leaves it with the price 20.00 (20480 units), the old name and no stock. -/
theorem C30_update_product_witness :
    (∃ q, (productRepository.Update none exCents 1 exReprice).2 = .ok ()
      ∧ First (fun p => p.ID) (fun p => p.ID = 1)
          (productRepository.Update none exCents 1 exReprice).1.products = some q
      ∧ (productRepository.Update none exCents 1 exReprice).1
          = { exCents with
              products := (productRepository.Update none exCents 1 exReprice).1.products }
      ∧ (0 ≤ exReprice.Stock → q.Stock = exReprice.Stock)
      ∧ (exReprice.Stock = 0 → q.Stock = 0)
      ∧ (exReprice.Stock < 0 → q.Stock = 5)
      ∧ q.Name = (if exReprice.Name = "" then "P" else exReprice.Name)
      ∧ q.Description = (if exReprice.Description = "" then "" else exReprice.Description)
      ∧ q.Image = (if exReprice.Image = "" then "" else exReprice.Image)
      ∧ q.CategoryID = (if exReprice.CategoryID = 0 then 7 else exReprice.CategoryID)
      ∧ q.Price = (if 0 < exReprice.Price then DecimalColumn.decimal_10_2 exReprice.Price
          else Fixed.ofThousandths 100)
      ∧ q.ID = 1)
    ∧ exReprice.Price = ⟨20479⟩
    ∧ (productRepository.Update none exCents 1 exReprice).1.products
        = [{ ID := 1, Name := "P", Description := "", Price := ⟨20480⟩, Stock := 0, Image := "",
             CategoryID := 7 }] :=
  ⟨C30_update_product exCents 1 exReprice
      { ID := 1, Name := "P", Description := "", Price := Fixed.ofThousandths 100, Stock := 5,
        Image := "", CategoryID := 7 } (by decide),
    by decide, by decide⟩

end Store
